import Mathlib

/-!
Verification of the kindling node-inventory daemon: the report pipeline
(collector, integrity envelope, persistent store, orchestrator) and the
declared-identity overlay loader (deep merge, overlay ordering, redaction).

The Rust sources are embedded shallowly: YAML trees (serde_yaml Value) become
the mutual inductive Yaml / YSeq / YMap, machine integers become Nat or Int
(with explicit two-complement wrapping where the source casts between widths),
timestamps become Int seconds, fallible operations return Except, and external
effects (probe processes, file IO, clocks, the SHA-256 digest of the sha2
crate and the serde_json string encoder) are passed in as explicit inputs or
function parameters.
-/

namespace Kindling

mutual
/-- Model of serde_yaml Value: Null, Bool, Number (integral or floating,
floats modelled as rationals since no arithmetic is ever performed on them),
String, Sequence and Mapping. -/
inductive Yaml where
  | null : Yaml
  | bool (b : Bool) : Yaml
  | int (n : Int) : Yaml
  | float (x : Rat) : Yaml
  | str (s : String) : Yaml
  | seq (xs : YSeq) : Yaml
  | map (m : YMap) : Yaml
  deriving DecidableEq, Repr
/-- A YAML sequence: a list of values. -/
inductive YSeq where
  | nil : YSeq
  | cons (hd : Yaml) (tl : YSeq) : YSeq
  deriving DecidableEq, Repr
/-- A YAML mapping: insertion-ordered key-value entries, mirroring the
IndexMap backing of serde_yaml Mapping; parsed YAML never holds duplicate
keys. -/
inductive YMap where
  | nil : YMap
  | cons (key : Yaml) (val : Yaml) (tl : YMap) : YMap
  deriving DecidableEq, Repr
end

/-- Lookup of the value stored under a key, first occurrence
(serde_yaml Mapping get; mappings hold each key at most once). -/
def YMap.get (m : YMap) (k : Yaml) : Option Yaml :=
  match m with
  | .nil => none
  | .cons k' v t => if k' = k then some v else t.get k

/-- The keys of a mapping, in order. -/
def YMap.keys (m : YMap) : List Yaml :=
  match m with
  | .nil => []
  | .cons k _ t => k :: t.keys

/-- Replace the value of the (unique) entry holding a key, leaving the entry
in place; no-op when the key is absent. Models the in-place write through
IndexMap get_mut. -/
def YMap.setFirst (m : YMap) (k v : Yaml) : YMap :=
  match m with
  | .nil => .nil
  | .cons k' v' t => if k' = k then .cons k' v t else .cons k' v' (t.setFirst k v)

/-- Append an entry at the end, modelling IndexMap insert of a fresh key. -/
def YMap.append (m : YMap) (k v : Yaml) : YMap :=
  match m with
  | .nil => .cons k v .nil
  | .cons k' v' t => .cons k' v' (t.append k v)

mutual
/-- deep_merge from node_identity/mod.rs: mappings merge recursively
(overlay keys win), a Null overlay leaves the base unchanged, any other
overlay (sequence, scalar, type mismatch) replaces the base wholesale. -/
def deep_merge : Yaml → Yaml → Yaml
  | .map bm, .map om => .map (mergeMaps bm om)
  | b, .null => b
  | _, o => o
/-- The loop of the Mapping-Mapping arm of deep_merge: fold the overlay
entries into the base mapping in overlay order; an entry whose key is present
in the base deep_merges into the existing value in place (IndexMap get_mut),
a fresh key is appended at the end (IndexMap insert). -/
def mergeMaps : YMap → YMap → YMap
  | bm, .nil => bm
  | bm, .cons k v rest =>
      mergeMaps
        (match bm.get k with
          | some bv => bm.setFirst k (deep_merge bv v)
          | none => bm.append k v)
        rest
end

/-- One overlay entry folded into the base mapping (the body of the
mergeMaps loop, named for the lemmas below). -/
def insertMerge (bm : YMap) (k v : Yaml) : YMap :=
  match bm.get k with
  | some bv => bm.setFirst k (deep_merge bv v)
  | none => bm.append k v

theorem mergeMaps_cons (bm : YMap) (k v : Yaml) (rest : YMap) :
    mergeMaps bm (.cons k v rest) = mergeMaps (insertMerge bm k v) rest := rfl

theorem get_setFirst : ∀ (m : YMap) (k v q : Yaml),
    (m.setFirst k v).get q =
      if k = q then
        match m.get k with
        | some _ => some v
        | none => none
      else m.get q
  | .nil, k, v, q => by
      by_cases hkq : k = q <;> simp [YMap.setFirst, YMap.get, hkq]
  | .cons k' v' t, k, v, q => by
      by_cases hk : k' = k
      · subst hk
        by_cases hq : k' = q
        · subst hq
          simp [YMap.setFirst, YMap.get]
        · simp [YMap.setFirst, YMap.get, hq]
      · by_cases hq : k' = q
        · have hkq : ¬ k = q := fun h => hk (hq.trans h.symm)
          have hqk : ¬ q = k := fun h => hkq h.symm
          simp [YMap.setFirst, YMap.get, hk, hq, hkq, hqk]
        · simp [YMap.setFirst, YMap.get, hk, hq, get_setFirst t k v q]

theorem get_append : ∀ (m : YMap) (k v q : Yaml),
    (m.append k v).get q =
      match m.get q with
      | some x => some x
      | none => if k = q then some v else none
  | .nil, k, v, q => by
      by_cases hkq : k = q <;> simp [YMap.append, YMap.get, hkq]
  | .cons k' v' t, k, v, q => by
      by_cases hq : k' = q
      · simp [YMap.append, YMap.get, hq]
      · simp [YMap.append, YMap.get, hq, get_append t k v q]

theorem get_insertMerge (bm : YMap) (k v q : Yaml) :
    (insertMerge bm k v).get q =
      if k = q then
        match bm.get q with
        | some bv => some (deep_merge bv v)
        | none => some v
      else bm.get q := by
  by_cases hkq : k = q
  · subst hkq
    cases h : bm.get k <;>
      simp [insertMerge, h, get_setFirst, get_append]
  · cases h : bm.get k <;>
      cases hq : bm.get q <;>
        simp [insertMerge, h, hq, get_setFirst, get_append, hkq]

theorem get_eq_none_of_not_mem_keys :
    ∀ (m : YMap) (k : Yaml), k ∉ m.keys → m.get k = none
  | .nil, _, _ => rfl
  | .cons k' v t, k, h => by
      simp [YMap.keys] at h
      have hne : ¬ k' = k := fun he => h.1 he.symm
      simp [YMap.get, hne, get_eq_none_of_not_mem_keys t k h.2]

theorem get_mergeMaps : ∀ (bm om : YMap) (q : Yaml), om.keys.Nodup →
    (mergeMaps bm om).get q =
      match bm.get q, om.get q with
      | some bv, some ov => some (deep_merge bv ov)
      | none, some ov => some ov
      | some bv, none => some bv
      | none, none => none
  | bm, .nil, q, _ => by
      cases h : bm.get q <;> simp [mergeMaps, YMap.get, h]
  | bm, .cons k v rest, q, hom => by
      have hnd : k ∉ rest.keys ∧ rest.keys.Nodup := by
        simpa [YMap.keys, List.nodup_cons] using hom
      by_cases hkq : k = q
      · subst hkq
        have hrest : rest.get k = none :=
          get_eq_none_of_not_mem_keys rest k hnd.1
        rw [mergeMaps_cons, get_mergeMaps (insertMerge bm k v) rest k hnd.2,
          get_insertMerge]
        cases h : bm.get k <;> simp [YMap.get, hrest, h]
      · rw [mergeMaps_cons, get_mergeMaps (insertMerge bm k v) rest q hnd.2,
          get_insertMerge]
        simp [YMap.get, hkq]

/-- Whether a value is a mapping. -/
def Yaml.isMap : Yaml → Bool
  | .map _ => true
  | _ => false

/-- The mapping-mapping arm of deep_merge delegates to the entry fold. -/
theorem deep_merge_map_map (bm om : YMap) :
    deep_merge (.map bm) (.map om) = .map (mergeMaps bm om) := rfl

/-- C2: deep_merge applies exactly three rules: a Null overlay leaves the
base unchanged; when base and overlay are both mappings the keys merge
recursively (overlay keys win, base keys missing from the overlay are
preserved); in every other combination the overlay replaces the base
wholesale. -/
theorem c2_deep_merge_rules :
    (∀ b : Yaml, deep_merge b .null = b) ∧
    (∀ b o : Yaml, o ≠ .null → (b.isMap = false ∨ o.isMap = false) →
      deep_merge b o = o) ∧
    (∀ (bm om : YMap) (q : Yaml), om.keys.Nodup →
      (mergeMaps bm om).get q =
        match bm.get q, om.get q with
        | some bv, some ov => some (deep_merge bv ov)
        | none, some ov => some ov
        | some bv, none => some bv
        | none, none => none) := by
  refine ⟨fun b => by cases b <;> rfl, fun b o ho hno => ?_,
    fun bm om q h => get_mergeMaps bm om q h⟩
  cases b <;> cases o <;> first | rfl | simp_all [Yaml.isMap]

/-- Witness for C2 at the worked examples of the specification: merging
overlay a.b=2 onto base a.b=1, a.c=3 yields a.b=2 with a.c=3 preserved;
a Null overlay leaves a sequence base untouched; a sequence overlay replaces
a sequence base wholesale. -/
theorem c2_deep_merge_rules_witness :
    (deep_merge (.seq (.cons (.int 9) .nil)) .null = .seq (.cons (.int 9) .nil)) ∧
    (deep_merge (.seq (.cons (.int 9) .nil))
        (.seq (.cons (.int 1) (.cons (.int 2) .nil))) =
      .seq (.cons (.int 1) (.cons (.int 2) .nil))) ∧
    (mergeMaps
        (.cons (.str "a")
          (.map (.cons (.str "b") (.int 1) (.cons (.str "c") (.int 3) .nil))) .nil)
        (.cons (.str "a") (.map (.cons (.str "b") (.int 2) .nil)) .nil)).get
        (.str "a") =
      some (.map (.cons (.str "b") (.int 2) (.cons (.str "c") (.int 3) .nil))) := by
  refine ⟨c2_deep_merge_rules.1 _, c2_deep_merge_rules.2.1 _ _ (by decide) (by decide), ?_⟩
  rw [c2_deep_merge_rules.2.2 _ _ _ (by decide)]
  decide

theorem YMap.get_cons (k v q : Yaml) (t : YMap) :
    (YMap.cons k v t).get q = if k = q then some v else t.get q := rfl

theorem YMap.get_eq_none_iff : ∀ (m : YMap) (k : Yaml), m.get k = none ↔ k ∉ m.keys
  | .nil, k => by simp [YMap.get, YMap.keys]
  | .cons k' v t, k => by
      by_cases h : k' = k
      · subst h
        simp [YMap.get, YMap.keys]
      · have h2 : ¬ k = k' := fun he => h he.symm
        simp [YMap.get, YMap.keys, h, h2, YMap.get_eq_none_iff t k]

theorem keys_setFirst : ∀ (m : YMap) (k v : Yaml), (m.setFirst k v).keys = m.keys
  | .nil, _, _ => rfl
  | .cons k' v' t, k, v => by
      by_cases h : k' = k <;>
        simp [YMap.setFirst, YMap.keys, h, keys_setFirst t k v]

theorem setFirst_self : ∀ (m : YMap) (k v : Yaml), m.get k = some v → m.setFirst k v = m
  | .nil, k, v, h => by simp [YMap.get] at h
  | .cons k' v' t, k, v, h => by
      by_cases hk : k' = k
      · subst hk
        simp [YMap.get] at h
        simp [YMap.setFirst, h]
      · simp [YMap.get, hk] at h
        simp [YMap.setFirst, hk, setFirst_self t k v h]

/-- The last entry of a mapping, if any. -/
def YMap.lastEntry? : YMap → Option (Yaml × Yaml)
  | .nil => none
  | .cons k v .nil => some (k, v)
  | .cons _ _ (.cons k2 v2 t2) => lastEntry? (.cons k2 v2 t2)

/-- All entries but the last. -/
def YMap.dropLastEntry : YMap → YMap
  | .nil => .nil
  | .cons _ _ .nil => .nil
  | .cons k v (.cons k2 v2 t2) => .cons k v (dropLastEntry (.cons k2 v2 t2))

/-- Replace the first entry holding a key by a fresh key-value pair. -/
def YMap.replaceEntry : YMap → Yaml → Yaml → Yaml → YMap
  | .nil, _, _, _ => .nil
  | .cons k' v' t, k, nk, nv =>
      if k' = k then .cons nk nv t else .cons k' v' (replaceEntry t k nk nv)

/-- Removal of a key from a mapping, modelling IndexMap swap_remove (which
serde_yaml Mapping remove delegates to): the first entry holding the key is
removed and the last entry of the mapping is moved into its slot; absent keys
leave the mapping untouched. -/
def YMap.swapRemove (m : YMap) (k : Yaml) : YMap :=
  match m.get k with
  | none => m
  | some _ =>
      match m.lastEntry? with
      | none => m
      | some (lk, lv) => (m.dropLastEntry).replaceEntry k lk lv

theorem lastEntry_isSome : ∀ (k v : Yaml) (t : YMap),
    ∃ e, (YMap.cons k v t).lastEntry? = some e
  | k, v, .nil => ⟨(k, v), rfl⟩
  | _, _, .cons k2 v2 t2 => lastEntry_isSome k2 v2 t2

theorem keys_dropLastEntry : ∀ (m : YMap),
    m.dropLastEntry.keys = m.keys.dropLast
  | .nil => rfl
  | .cons _ _ .nil => rfl
  | .cons k v (.cons k2 v2 t2) => by
      simp [YMap.dropLastEntry, YMap.keys, keys_dropLastEntry (.cons k2 v2 t2)]

theorem lastEntry_get : ∀ (m : YMap) (lk lv : Yaml), m.keys.Nodup →
    m.lastEntry? = some (lk, lv) →
    m.get lk = some lv ∧
      ∀ q, m.dropLastEntry.get q = if q = lk then none else m.get q
  | .nil, lk, lv, _, h => by simp [YMap.lastEntry?] at h
  | .cons k v .nil, lk, lv, _, h => by
      have h12 : k = lk ∧ v = lv := by simpa [YMap.lastEntry?] using h
      obtain ⟨h1, h2⟩ := h12
      subst h1
      subst h2
      refine ⟨by simp [YMap.get_cons], fun q => ?_⟩
      by_cases hq : q = k
      · simp [YMap.dropLastEntry, YMap.get, hq]
      · have h3 : ¬ k = q := fun he => hq he.symm
        simp [YMap.dropLastEntry, YMap.get, hq, h3]
  | .cons k v (.cons k2 v2 t2), lk, lv, hnd, h => by
      have hl : (YMap.cons k2 v2 t2).lastEntry? = some (lk, lv) := h
      have hnd' : k ∉ (YMap.cons k2 v2 t2).keys ∧ (YMap.cons k2 v2 t2).keys.Nodup := by
        simpa [YMap.keys, List.nodup_cons] using hnd
      obtain ⟨hget, hdrop⟩ := lastEntry_get (.cons k2 v2 t2) lk lv hnd'.2 hl
      have hmem : lk ∈ (YMap.cons k2 v2 t2).keys := by
        by_contra hmem
        rw [(YMap.get_eq_none_iff _ lk).2 hmem] at hget
        exact Option.noConfusion hget
      have hkl : ¬ k = lk := fun he => hnd'.1 (he ▸ hmem)
      refine ⟨?_, fun q => ?_⟩
      · rw [YMap.get_cons, if_neg hkl, hget]
      · by_cases hq : k = q
        · subst hq
          simp [YMap.dropLastEntry, YMap.get_cons, hkl,
            fun he => hkl (he : k = lk)]
        · simp only [YMap.dropLastEntry, YMap.get_cons, if_neg hq]
          rw [hdrop q]
          by_cases hql : q = lk
          · simp [hql]
          · simp [hql, YMap.get_cons, hq]

theorem replaceEntry_absent : ∀ (m : YMap) (k nk nv : Yaml),
    m.get k = none → m.replaceEntry k nk nv = m
  | .nil, _, _, _, _ => rfl
  | .cons k' v' t, k, nk, nv, h => by
      by_cases hk : k' = k
      · rw [YMap.get_cons, if_pos hk] at h
        exact Option.noConfusion h
      · rw [YMap.get_cons, if_neg hk] at h
        simp [YMap.replaceEntry, hk, replaceEntry_absent t k nk nv h]

theorem get_replaceEntry : ∀ (m : YMap) (k nk nv q : Yaml), m.keys.Nodup →
    nk ∉ m.keys → m.get k ≠ none →
    (m.replaceEntry k nk nv).get q =
      if q = nk then some nv else if q = k then none else m.get q
  | .nil, k, nk, nv, q, _, _, h => by simp [YMap.get] at h
  | .cons k' v' t, k, nk, nv, q, hnd, hnk, h => by
      have hnd' : k' ∉ t.keys ∧ t.keys.Nodup := by
        simpa [YMap.keys, List.nodup_cons] using hnd
      have hnk' : ¬ nk = k' ∧ nk ∉ t.keys := by
        simpa [YMap.keys] using hnk
      by_cases hk : k' = k
      · subst hk
        have hres : (YMap.cons k' v' t).replaceEntry k' nk nv = .cons nk nv t := by
          simp [YMap.replaceEntry]
        rw [hres, YMap.get_cons]
        by_cases hq : q = nk
        · rw [if_pos hq.symm, if_pos hq]
        · rw [if_neg (fun he => hq (he.symm : q = nk)), if_neg hq]
          by_cases hqk : q = k'
          · rw [if_pos hqk, hqk, (YMap.get_eq_none_iff t k').2 hnd'.1]
          · rw [if_neg hqk, YMap.get_cons,
              if_neg (fun he => hqk (he.symm : q = k'))]
      · have htk : t.get k ≠ none := by rwa [YMap.get_cons, if_neg hk] at h
        by_cases hq : k' = q
        · have hqnk : ¬ q = nk := fun he => hnk'.1 (he ▸ hq).symm
          have hqk : ¬ q = k := fun he => hk (hq.trans he)
          simp [YMap.replaceEntry, hk, YMap.get_cons, hq, hqnk, hqk]
        · rw [YMap.replaceEntry]
          simp only [if_neg hk]
          rw [YMap.get_cons, if_neg hq,
            get_replaceEntry t k nk nv q hnd'.2 hnk'.2 htk,
            YMap.get_cons, if_neg hq]

theorem get_swapRemove (m : YMap) (k : Yaml) (hnd : m.keys.Nodup) (q : Yaml) :
    (m.swapRemove k).get q = if q = k then none else m.get q := by
  cases h : m.get k with
  | none =>
      have hm : m.swapRemove k = m := by simp [YMap.swapRemove, h]
      rw [hm]
      by_cases hq : q = k
      · rw [if_pos hq, hq, h]
      · rw [if_neg hq]
  | some v0 =>
      cases m with
      | nil => simp [YMap.get] at h
      | cons k1 v1 t1 =>
        obtain ⟨⟨lk, lv⟩, hl⟩ := lastEntry_isSome k1 v1 t1
        obtain ⟨hglk, hdrop⟩ := lastEntry_get _ lk lv hnd hl
        have hres : (YMap.cons k1 v1 t1).swapRemove k =
            ((YMap.cons k1 v1 t1).dropLastEntry).replaceEntry k lk lv := by
          simp [YMap.swapRemove, h, hl]
        rw [hres]
        by_cases hlk : lk = k
        · have habs : ((YMap.cons k1 v1 t1).dropLastEntry).get k = none := by
            rw [hdrop k, if_pos hlk.symm]
          rw [replaceEntry_absent _ _ _ _ habs, hdrop q, hlk]
        · have hndd : ((YMap.cons k1 v1 t1).dropLastEntry).keys.Nodup := by
            rw [keys_dropLastEntry]
            exact hnd.sublist (List.dropLast_sublist _)
          have hnkd : lk ∉ ((YMap.cons k1 v1 t1).dropLastEntry).keys := by
            rw [← YMap.get_eq_none_iff, hdrop lk, if_pos rfl]
          have hklk : ¬ k = lk := fun he => hlk he.symm
          have hgk : ((YMap.cons k1 v1 t1).dropLastEntry).get k ≠ none := by
            rw [hdrop k, if_neg hklk, h]
            exact fun hc => Option.noConfusion hc
          rw [get_replaceEntry _ k lk lv q hndd hnkd hgk]
          by_cases hq : q = k
          · have hqlk : ¬ q = lk := fun he => hlk (he ▸ hq : lk = k)
            rw [if_neg hqlk, if_pos hq, if_pos hq]
          · by_cases hql : q = lk
            · rw [if_pos hql, if_neg hq, hql, hglk]
            · rw [if_neg hql, if_neg hq, if_neg hq, hdrop q, if_neg hql]

mutual
/-- Wellformedness of a YAML tree: every mapping holds each key at most once,
the invariant serde_yaml guarantees for every parsed document (duplicate
mapping keys are a parse error). -/
def Yaml.wfB : Yaml → Bool
  | .null => true
  | .bool _ => true
  | .int _ => true
  | .float _ => true
  | .str _ => true
  | .seq s => s.wfB
  | .map m => m.wfB
/-- Wellformedness of a sequence: every element wellformed. -/
def YSeq.wfB : YSeq → Bool
  | .nil => true
  | .cons h t => h.wfB && t.wfB
/-- Wellformedness of a mapping: keys pairwise distinct, values wellformed. -/
def YMap.wfB : YMap → Bool
  | .nil => true
  | .cons k v t => decide (k ∉ t.keys) && v.wfB && t.wfB
end

theorem wfB_nodup : ∀ m : YMap, m.wfB = true → m.keys.Nodup
  | .nil, _ => by simp [YMap.keys]
  | .cons k v t, h => by
      have h' : k ∉ t.keys ∧ v.wfB = true ∧ t.wfB = true := by
        simpa [YMap.wfB, Bool.and_eq_true, decide_eq_true_eq, and_assoc] using h
      simpa [YMap.keys, List.nodup_cons] using ⟨h'.1, wfB_nodup t h'.2.2⟩

theorem wfB_get : ∀ (m : YMap) (k v : Yaml), m.wfB = true → m.get k = some v →
    v.wfB = true
  | .cons k' v' t, k, v, hwf, hg => by
      have h' : k' ∉ t.keys ∧ v'.wfB = true ∧ t.wfB = true := by
        simpa [YMap.wfB, Bool.and_eq_true, decide_eq_true_eq, and_assoc] using hwf
      by_cases hk : k' = k
      · rw [YMap.get_cons, if_pos hk] at hg
        cases hg
        exact h'.2.1
      · rw [YMap.get_cons, if_neg hk] at hg
        exact wfB_get t k v h'.2.2 hg

theorem mem_keys_replaceEntry : ∀ (m : YMap) (k nk nv x : Yaml),
    x ∈ (m.replaceEntry k nk nv).keys → x ∈ m.keys ∨ x = nk
  | .nil, _, _, _, _, h => by simp [YMap.replaceEntry, YMap.keys] at h
  | .cons k' v' t, k, nk, nv, x, h => by
      by_cases hk : k' = k
      · rw [YMap.replaceEntry] at h
        simp only [if_pos hk] at h
        rcases (by simpa [YMap.keys] using h : x = nk ∨ x ∈ t.keys) with h' | h'
        · exact Or.inr h'
        · exact Or.inl (by simp [YMap.keys, h'])
      · rw [YMap.replaceEntry] at h
        simp only [if_neg hk] at h
        rcases (by simpa [YMap.keys] using h :
            x = k' ∨ x ∈ (t.replaceEntry k nk nv).keys) with h' | h'
        · exact Or.inl (by simp [YMap.keys, h'])
        · rcases mem_keys_replaceEntry t k nk nv x h' with h2 | h2
          · exact Or.inl (by simp [YMap.keys, h2])
          · exact Or.inr h2

theorem wfB_replaceEntry : ∀ (m : YMap) (k nk nv : Yaml), m.wfB = true →
    nk ∉ m.keys → nv.wfB = true → (m.replaceEntry k nk nv).wfB = true
  | .nil, _, _, _, _, _, _ => rfl
  | .cons k' v' t, k, nk, nv, hwf, hnk, hnv => by
      have h' : k' ∉ t.keys ∧ v'.wfB = true ∧ t.wfB = true := by
        simpa [YMap.wfB, Bool.and_eq_true, decide_eq_true_eq, and_assoc] using hwf
      have hnk' : ¬ nk = k' ∧ nk ∉ t.keys := by simpa [YMap.keys] using hnk
      by_cases hk : k' = k
      · rw [YMap.replaceEntry]
        simp only [if_pos hk]
        simp [YMap.wfB, hnk'.2, hnv, h'.2.2]
      · rw [YMap.replaceEntry]
        simp only [if_neg hk]
        have hmem : k' ∉ (t.replaceEntry k nk nv).keys := by
          intro hm
          rcases mem_keys_replaceEntry t k nk nv k' hm with h2 | h2
          · exact h'.1 h2
          · exact hnk'.1 h2.symm
        simp [YMap.wfB, hmem, h'.2.1,
          wfB_replaceEntry t k nk nv h'.2.2 hnk'.2 hnv]

theorem wfB_dropLastEntry : ∀ m : YMap, m.wfB = true → m.dropLastEntry.wfB = true
  | .nil, _ => rfl
  | .cons _ _ .nil, _ => rfl
  | .cons k v (.cons k2 v2 t2), hwf => by
      have h' : k ∉ (YMap.cons k2 v2 t2).keys ∧ v.wfB = true ∧
          (YMap.cons k2 v2 t2).wfB = true := by
        simpa [YMap.wfB, Bool.and_eq_true, decide_eq_true_eq, and_assoc] using hwf
      have hmem : k ∉ ((YMap.cons k2 v2 t2).dropLastEntry).keys := by
        rw [keys_dropLastEntry]
        exact fun hm => h'.1 ((List.dropLast_sublist _).subset hm)
      have ih := wfB_dropLastEntry (.cons k2 v2 t2) h'.2.2
      simp [YMap.dropLastEntry, YMap.wfB, hmem, h'.2.1, ih]

theorem wfB_setFirst : ∀ (m : YMap) (k nv : Yaml), m.wfB = true →
    nv.wfB = true → (m.setFirst k nv).wfB = true
  | .nil, _, _, _, _ => rfl
  | .cons k' v' t, k, nv, hwf, hnv => by
      have h' : k' ∉ t.keys ∧ v'.wfB = true ∧ t.wfB = true := by
        simpa [YMap.wfB, Bool.and_eq_true, decide_eq_true_eq, and_assoc] using hwf
      by_cases hk : k' = k
      · subst hk
        simp [YMap.setFirst, YMap.wfB, h'.1, hnv, h'.2.2]
      · have hkeys : (t.setFirst k nv).keys = t.keys := keys_setFirst t k nv
        simp [YMap.setFirst, hk, YMap.wfB, hkeys, h'.1, h'.2.1,
          wfB_setFirst t k nv h'.2.2 hnv]

theorem wfB_swapRemove (m : YMap) (k : Yaml) (hwf : m.wfB = true) :
    (m.swapRemove k).wfB = true := by
  cases h : m.get k with
  | none => simpa [YMap.swapRemove, h] using hwf
  | some v0 =>
      cases m with
      | nil => simp [YMap.get] at h
      | cons k1 v1 t1 =>
        have hnd := wfB_nodup _ hwf
        obtain ⟨⟨lk, lv⟩, hl⟩ := lastEntry_isSome k1 v1 t1
        obtain ⟨hglk, hdrop⟩ := lastEntry_get _ lk lv hnd hl
        have hres : (YMap.cons k1 v1 t1).swapRemove k =
            ((YMap.cons k1 v1 t1).dropLastEntry).replaceEntry k lk lv := by
          simp [YMap.swapRemove, h, hl]
        rw [hres]
        have hlkw : lv.wfB = true := wfB_get _ lk lv hwf hglk
        have hnkd : lk ∉ ((YMap.cons k1 v1 t1).dropLastEntry).keys := by
          rw [← YMap.get_eq_none_iff, hdrop lk, if_pos rfl]
        exact wfB_replaceEntry _ k lk lv (wfB_dropLastEntry _ hwf) hnkd hlkw

/-- remove_field_recursive from node_identity/mod.rs: on a mapping, a
single-segment path removes the key (Mapping remove, i.e. swap_remove); a
longer path descends through get_mut into the child named by the head segment
and recurses, doing nothing when the key is absent; on any non-mapping value
nothing happens. -/
def remove_field_recursive : Yaml → List String → Yaml
  | v, [] => v
  | .map m, p :: ps =>
      if ps.isEmpty then .map (m.swapRemove (.str p))
      else
        match m.get (.str p) with
        | some child => .map (m.setFirst (.str p) (remove_field_recursive child ps))
        | none => .map m
  | v, _ :: _ => v

/-- Rust str split on the dot character, over the character list: every dot
separates segments, empty segments are preserved, and the empty string yields
one empty segment. -/
def splitDotsList : List Char → List (List Char)
  | [] => [[]]
  | c :: cs =>
      if c = '.' then [] :: splitDotsList cs
      else
        match splitDotsList cs with
        | [] => [[c]]
        | seg :: rest => (c :: seg) :: rest

/-- Model of the Rust path.split of the dot character collected to a Vec. -/
def splitDots (s : String) : List String :=
  (splitDotsList s.data).map (fun l => String.mk l)

theorem splitDotsList_ne_nil : ∀ cs : List Char, splitDotsList cs ≠ []
  | [] => by simp [splitDotsList]
  | c :: cs => by
      by_cases hc : c = '.'
      · simp [splitDotsList, hc]
      · cases h : splitDotsList cs <;> simp [splitDotsList, hc, h]

theorem splitDots_ne_nil (s : String) : splitDots s ≠ [] := by
  have h := splitDotsList_ne_nil s.data
  cases hs : splitDotsList s.data with
  | nil => exact absurd hs h
  | cons a l => simp [splitDots, hs]

/-- remove_field_path from node_identity/mod.rs: split the dot-separated path
and delegate to remove_field_recursive (the empty-parts guard is dead code
since split always yields at least one segment, but is modelled anyway). -/
def remove_field_path (v : Yaml) (path : String) : Yaml :=
  let parts := splitDots path
  if parts.isEmpty then v else remove_field_recursive v parts

/-- Specification helper: the value a dot-path denotes, descending through
mappings; none when a segment is missing or a non-mapping is traversed. -/
def getPath : Yaml → List String → Option Yaml
  | v, [] => some v
  | .map m, p :: ps =>
      match m.get (.str p) with
      | some child => getPath child ps
      | none => none
  | _, _ :: _ => none

theorem getPath_remove_self : ∀ (parts : List String) (v : Yaml),
    parts ≠ [] → v.wfB = true →
    getPath (remove_field_recursive v parts) parts = none
  | [], _, h, _ => absurd rfl h
  | [p], v, _, hwf => by
      cases v with
      | map m =>
          have hnd := wfB_nodup m (by simpa [Yaml.wfB] using hwf)
          simp [remove_field_recursive, getPath,
            get_swapRemove m (.str p) hnd (.str p)]
      | null => rfl
      | bool b => rfl
      | int n => rfl
      | float x => rfl
      | str s => rfl
      | seq xs => rfl
  | p :: p2 :: rest, v, _, hwf => by
      cases v with
      | map m =>
          have hwfm : m.wfB = true := by simpa [Yaml.wfB] using hwf
          cases hg : m.get (.str p) with
          | none => simp [remove_field_recursive, hg, getPath]
          | some child =>
              have hchild : child.wfB = true := wfB_get m _ child hwfm hg
              have ih := getPath_remove_self (p2 :: rest) child (by simp) hchild
              simp [remove_field_recursive, hg, getPath, get_setFirst, ih]
      | null => rfl
      | bool b => rfl
      | int n => rfl
      | float x => rfl
      | str s => rfl
      | seq xs => rfl

theorem remove_field_recursive_noop : ∀ (parts : List String) (v : Yaml),
    getPath v parts = none → remove_field_recursive v parts = v
  | [], v, h => by simp [getPath] at h
  | [p], v, h => by
      cases v with
      | map m =>
          cases hg : m.get (.str p) with
          | some child => simp [getPath, hg] at h
          | none => simp [remove_field_recursive, YMap.swapRemove, hg]
      | null => rfl
      | bool b => rfl
      | int n => rfl
      | float x => rfl
      | str s => rfl
      | seq xs => rfl
  | p :: p2 :: rest, v, h => by
      cases v with
      | map m =>
          cases hg : m.get (.str p) with
          | none => simp [remove_field_recursive, hg]
          | some child =>
              have hc : getPath child (p2 :: rest) = none := by
                simpa [getPath, hg] using h
              simp [remove_field_recursive, hg,
                remove_field_recursive_noop (p2 :: rest) child hc,
                setFirst_self m (.str p) child hg]
      | null => rfl
      | bool b => rfl
      | int n => rfl
      | float x => rfl
      | str s => rfl
      | seq xs => rfl

theorem getPath_remove_other : ∀ (parts q : List String) (v : Yaml),
    v.wfB = true → ¬ parts <+: q → ¬ q <+: parts →
    getPath (remove_field_recursive v parts) q = getPath v q
  | [], q, _, _, h1, _ => absurd (List.nil_prefix) h1
  | _ :: _, [], _, _, _, h2 => absurd (List.nil_prefix) h2
  | p :: ps, q0 :: qs, v, hwf, h1, h2 => by
      cases v with
      | map m =>
          have hwfm : m.wfB = true := by simpa [Yaml.wfB] using hwf
          have hnd := wfB_nodup m hwfm
          by_cases hpq : p = q0
          · subst hpq
            have h1' : ¬ ps <+: qs := fun hp =>
              h1 (List.cons_prefix_cons.2 ⟨rfl, hp⟩)
            have h2' : ¬ qs <+: ps := fun hp =>
              h2 (List.cons_prefix_cons.2 ⟨rfl, hp⟩)
            have hps : ps ≠ [] := by
              rintro rfl
              exact h1' (List.nil_prefix)
            rcases ps with _ | ⟨a, l⟩
            · exact absurd rfl hps
            · cases hg : m.get (.str p) with
              | none => simp [remove_field_recursive, hg, getPath]
              | some child =>
                  have hchild : child.wfB = true := wfB_get m _ child hwfm hg
                  have ih := getPath_remove_other (a :: l) qs child hchild h1' h2'
                  simp [remove_field_recursive, hg, getPath, get_setFirst, ih]
          · have hkey : ¬ (Yaml.str p = Yaml.str q0) := by
              simpa using hpq
            rcases ps with _ | ⟨a, l⟩
            · have hsw := get_swapRemove m (.str p) hnd (.str q0)
              rw [if_neg (fun he => hkey (he.symm : Yaml.str p = Yaml.str q0))]
                at hsw
              simp [remove_field_recursive, getPath, hsw]
            · cases hg : m.get (.str p) with
              | none => simp [remove_field_recursive, hg]
              | some child =>
                  simp [remove_field_recursive, hg, getPath, get_setFirst, hkey]
      | null => rfl
      | bool b => rfl
      | int n => rfl
      | float x => rfl
      | str s => rfl
      | seq xs => rfl

theorem getPath_none_remove : ∀ (parts q : List String) (v : Yaml),
    v.wfB = true → getPath v q = none →
    getPath (remove_field_recursive v parts) q = none
  | _, [], v, _, h => by simp [getPath] at h
  | [], _ :: _, v, _, h => by simpa [remove_field_recursive] using h
  | p :: ps, q0 :: qs, v, hwf, h => by
      cases v with
      | map m =>
          have hwfm : m.wfB = true := by simpa [Yaml.wfB] using hwf
          have hnd := wfB_nodup m hwfm
          cases hg0 : m.get (.str q0) with
          | none =>
              rcases ps with _ | ⟨a, l⟩
              · have hsw := get_swapRemove m (.str p) hnd (.str q0)
                simp [remove_field_recursive, getPath, hsw, hg0]
              · cases hg : m.get (.str p) with
                | none => simp [remove_field_recursive, hg, getPath, hg0]
                | some child =>
                    have hkey : ¬ (Yaml.str p = Yaml.str q0) := by
                      intro he
                      rw [he, hg0] at hg
                      exact Option.noConfusion hg
                    simp [remove_field_recursive, hg, getPath, get_setFirst,
                      hkey, hg0]
          | some child0 =>
              have hq : getPath child0 qs = none := by
                simpa [getPath, hg0] using h
              by_cases hpq : p = q0
              · subst hpq
                rcases ps with _ | ⟨a, l⟩
                · have hsw := get_swapRemove m (.str p) hnd (.str p)
                  simp [remove_field_recursive, getPath, hsw]
                · have hchild : child0.wfB = true := wfB_get m _ child0 hwfm hg0
                  have ih := getPath_none_remove (a :: l) qs child0 hchild hq
                  simp [remove_field_recursive, hg0, getPath, get_setFirst, ih]
              · have hkey : ¬ (Yaml.str p = Yaml.str q0) := by simpa using hpq
                rcases ps with _ | ⟨a, l⟩
                · have hsw := get_swapRemove m (.str p) hnd (.str q0)
                  rw [if_neg (fun he => hkey (he.symm : Yaml.str p = Yaml.str q0))]
                    at hsw
                  simp [remove_field_recursive, getPath, hsw, hg0, hq]
                · cases hg : m.get (.str p) with
                  | none => simp [remove_field_recursive, hg, getPath, hg0, hq]
                  | some child =>
                      simp [remove_field_recursive, hg, getPath, get_setFirst,
                        hkey, hg0, hq]
      | null => simpa [remove_field_recursive] using h
      | bool b => simpa [remove_field_recursive] using h
      | int n => simpa [remove_field_recursive] using h
      | float x => simpa [remove_field_recursive] using h
      | str s => simpa [remove_field_recursive] using h
      | seq xs => simpa [remove_field_recursive] using h

theorem wfB_remove : ∀ (parts : List String) (v : Yaml), v.wfB = true →
    (remove_field_recursive v parts).wfB = true
  | [], _, h => by simpa [remove_field_recursive] using h
  | p :: ps, v, hwf => by
      cases v with
      | map m =>
          have hwfm : m.wfB = true := by simpa [Yaml.wfB] using hwf
          rcases ps with _ | ⟨a, l⟩
          · simpa [remove_field_recursive, Yaml.wfB] using
              wfB_swapRemove m (.str p) hwfm
          · cases hg : m.get (.str p) with
            | none => simpa [remove_field_recursive, hg, Yaml.wfB] using hwfm
            | some child =>
                have hchild : child.wfB = true := wfB_get m _ child hwfm hg
                simpa [remove_field_recursive, hg, Yaml.wfB] using
                  wfB_setFirst m (.str p) _ hwfm
                    (wfB_remove (a :: l) child hchild)
      | null => exact hwf
      | bool b => exact hwf
      | int n => exact hwf
      | float x => exact hwf
      | str s => exact hwf
      | seq xs => exact hwf

theorem wfB_remove_path (v : Yaml) (path : String) (h : v.wfB = true) :
    (remove_field_path v path).wfB = true := by
  simp only [remove_field_path]
  cases hp : splitDots path with
  | nil => exact absurd hp (splitDots_ne_nil path)
  | cons a l => simpa [hp] using wfB_remove (a :: l) v h

theorem getPath_remove_path_self (v : Yaml) (path : String)
    (hwf : v.wfB = true) :
    getPath (remove_field_path v path) (splitDots path) = none := by
  simp only [remove_field_path]
  cases hp : splitDots path with
  | nil => exact absurd hp (splitDots_ne_nil path)
  | cons a l =>
      simpa [hp] using getPath_remove_self (a :: l) v (by simp) hwf

theorem getPath_remove_path_other (v : Yaml) (path : String) (q : List String)
    (hwf : v.wfB = true) (h1 : ¬ splitDots path <+: q)
    (h2 : ¬ q <+: splitDots path) :
    getPath (remove_field_path v path) q = getPath v q := by
  simp only [remove_field_path]
  cases hp : splitDots path with
  | nil => exact absurd hp (splitDots_ne_nil path)
  | cons a l =>
      rw [hp] at h1 h2
      simpa [hp] using getPath_remove_other (a :: l) q v hwf h1 h2

theorem getPath_none_remove_path (v : Yaml) (path : String) (q : List String)
    (hwf : v.wfB = true) (h : getPath v q = none) :
    getPath (remove_field_path v path) q = none := by
  simp only [remove_field_path]
  cases hp : splitDots path with
  | nil => exact absurd hp (splitDots_ne_nil path)
  | cons a l => simpa [hp] using getPath_none_remove (a :: l) q v hwf h

theorem remove_field_path_noop (v : Yaml) (path : String)
    (h : getPath v (splitDots path) = none) :
    remove_field_path v path = v := by
  simp only [remove_field_path]
  cases hp : splitDots path with
  | nil => exact absurd hp (splitDots_ne_nil path)
  | cons a l =>
      rw [hp] at h
      simpa [hp] using remove_field_recursive_noop (a :: l) v h

theorem wfB_foldl_remove : ∀ (fields : List String) (v : Yaml),
    v.wfB = true → (fields.foldl remove_field_path v).wfB = true
  | [], _, h => h
  | f :: fs, v, h => wfB_foldl_remove fs _ (wfB_remove_path v f h)

theorem getPath_none_foldl : ∀ (fields : List String) (v : Yaml)
    (q : List String), v.wfB = true → getPath v q = none →
    getPath (fields.foldl remove_field_path v) q = none
  | [], _, _, _, h => h
  | f :: fs, v, q, hwf, h =>
      getPath_none_foldl fs _ q (wfB_remove_path v f hwf)
        (getPath_none_remove_path v f q hwf h)

theorem getPath_foldl_self : ∀ (fields : List String) (v : Yaml) (f : String),
    v.wfB = true → f ∈ fields →
    getPath (fields.foldl remove_field_path v) (splitDots f) = none
  | [], _, f, _, hmem => absurd hmem (List.not_mem_nil f)
  | f0 :: fs, v, f, hwf, hmem => by
      rcases List.mem_cons.1 hmem with rfl | hmem'
      · exact getPath_none_foldl fs _ _ (wfB_remove_path v f hwf)
          (getPath_remove_path_self v f hwf)
      · exact getPath_foldl_self fs _ f (wfB_remove_path v f0 hwf) hmem'

theorem getPath_foldl_other : ∀ (fields : List String) (v : Yaml)
    (q : List String), v.wfB = true →
    (∀ f ∈ fields, ¬ splitDots f <+: q ∧ ¬ q <+: splitDots f) →
    getPath (fields.foldl remove_field_path v) q = getPath v q
  | [], _, _, _, _ => rfl
  | f0 :: fs, v, q, hwf, hdiv => by
      have h0 := hdiv f0 (List.mem_cons_self f0 fs)
      rw [List.foldl_cons,
        getPath_foldl_other fs _ q (wfB_remove_path v f0 hwf)
          (fun f hf => hdiv f (List.mem_cons_of_mem _ hf)),
        getPath_remove_path_other v f0 q hwf h0.1 h0.2]

/-- C7: redaction removes each named dot-path structurally (the path denotes
nothing afterwards, rather than a masked placeholder), leaves every path that
neither extends nor is extended by a removed path unchanged, and treats a
path that denotes nothing (nonexistent key or traversal of a non-mapping) as
a no-op rather than an error. Redact iterates remove_field_path over the
field list, modelled by the fold. -/
theorem c7_redact_structural_deletion :
    ∀ (v : Yaml) (fields : List String), v.wfB = true →
      (∀ f ∈ fields,
        getPath (fields.foldl remove_field_path v) (splitDots f) = none) ∧
      (∀ q : List String,
        (∀ f ∈ fields, ¬ splitDots f <+: q ∧ ¬ q <+: splitDots f) →
        getPath (fields.foldl remove_field_path v) q = getPath v q) ∧
      (∀ path : String, getPath v (splitDots path) = none →
        remove_field_path v path = v) :=
  fun v fields hv =>
    ⟨fun f hf => getPath_foldl_self fields v f hv hf,
     fun q hdiv => getPath_foldl_other fields v q hv hdiv,
     fun path h => remove_field_path_noop v path h⟩

/-- Witness for C7 on a concrete identity tree: redacting secrets.age_keys
deletes that path, leaves hostname untouched, and a missing path is a no-op. -/
theorem c7_redact_structural_deletion_witness :
    (getPath
        (List.foldl remove_field_path
          (.map (.cons (.str "hostname") (.str "node-a")
            (.cons (.str "secrets")
              (.map (.cons (.str "age_keys")
                  (.seq (.cons (.str "AGE-SECRET-KEY-1") .nil))
                (.cons (.str "provider") (.str "sops") .nil))) .nil)))
          ["secrets.age_keys"])
        (splitDots "secrets.age_keys") = none) ∧
    (getPath
        (List.foldl remove_field_path
          (.map (.cons (.str "hostname") (.str "node-a")
            (.cons (.str "secrets")
              (.map (.cons (.str "age_keys")
                  (.seq (.cons (.str "AGE-SECRET-KEY-1") .nil))
                (.cons (.str "provider") (.str "sops") .nil))) .nil)))
          ["secrets.age_keys"])
        ["hostname"] =
      getPath
        (.map (.cons (.str "hostname") (.str "node-a")
          (.cons (.str "secrets")
            (.map (.cons (.str "age_keys")
                (.seq (.cons (.str "AGE-SECRET-KEY-1") .nil))
              (.cons (.str "provider") (.str "sops") .nil))) .nil)))
        ["hostname"]) ∧
    (remove_field_path
        (.map (.cons (.str "hostname") (.str "node-a")
          (.cons (.str "secrets")
            (.map (.cons (.str "age_keys")
                (.seq (.cons (.str "AGE-SECRET-KEY-1") .nil))
              (.cons (.str "provider") (.str "sops") .nil))) .nil)))
        "network.vpn" =
      (.map (.cons (.str "hostname") (.str "node-a")
        (.cons (.str "secrets")
          (.map (.cons (.str "age_keys")
              (.seq (.cons (.str "AGE-SECRET-KEY-1") .nil))
            (.cons (.str "provider") (.str "sops") .nil))) .nil)))) := by
  obtain ⟨hA, hB, hC⟩ := c7_redact_structural_deletion
    (.map (.cons (.str "hostname") (.str "node-a")
      (.cons (.str "secrets")
        (.map (.cons (.str "age_keys")
            (.seq (.cons (.str "AGE-SECRET-KEY-1") .nil))
          (.cons (.str "provider") (.str "sops") .nil))) .nil)))
    ["secrets.age_keys"] (by decide)
  refine ⟨hA "secrets.age_keys" (by simp), ?_, hC "network.vpn" (by decide)⟩
  refine hB ["hostname"] ?_
  intro f hf
  have hfe : f = "secrets.age_keys" := by simpa using hf
  subst hfe
  exact ⟨by decide, by decide⟩

deriving instance DecidableEq for Except

/-- An overlay directory as seen by read_dir: its path as components and the
file names it contains (read_dir order is unspecified; the code sorts the
pooled result, so only membership matters). Directories that do not exist or
cannot be read simply do not appear in this list. -/
structure OverlayDir where
  path : List String
  files : List String
  deriving DecidableEq, Repr

/-- Rust Path extension: the portion of the file name after the final dot;
none when there is no dot, or when the only dot leads a hidden file. -/
def fileExtension (name : String) : Option String :=
  match splitDots name with
  | [] => none
  | [_] => none
  | ["", _] => none
  | segs => segs.getLast?

/-- The extension filter of load_with_overlays: keep yaml and yml files. -/
def isYamlFile (name : String) : Bool :=
  match fileExtension name with
  | some ext => ext == "yaml" || ext == "yml"
  | none => false

/-- Strict character comparison by code point, the order of the underlying
UTF-8 bytes. -/
def charLtB (a b : Char) : Bool := decide (a.toNat < b.toNat)

/-- Strict lexicographic comparison of character lists: the bytewise order
Rust uses for OsStr path components. -/
def strLtB : List Char → List Char → Bool
  | [], [] => false
  | [], _ :: _ => true
  | _ :: _, [] => false
  | a :: as, b :: bs =>
      if charLtB a b then true
      else if a.toNat = b.toNat then strLtB as bs else false

theorem strLtB_irrefl : ∀ as : List Char, strLtB as as = false
  | [] => rfl
  | a :: as => by simp [strLtB, charLtB, strLtB_irrefl as]

theorem strLtB_trichotomy : ∀ as bs : List Char,
    strLtB as bs = true ∨ as = bs ∨ strLtB bs as = true
  | [], [] => Or.inr (Or.inl rfl)
  | [], _ :: _ => Or.inl rfl
  | _ :: _, [] => Or.inr (Or.inr rfl)
  | a :: as, b :: bs => by
      rcases Nat.lt_trichotomy a.toNat b.toNat with h | h | h
      · exact Or.inl (by simp [strLtB, charLtB, h])
      · have hab : a = b := Char.ext (UInt32.toNat.inj h)
        subst hab
        rcases strLtB_trichotomy as bs with h2 | h2 | h2
        · exact Or.inl (by simp [strLtB, charLtB, h2])
        · exact Or.inr (Or.inl (by rw [h2]))
        · exact Or.inr (Or.inr (by simp [strLtB, charLtB, h2]))
      · exact Or.inr (Or.inr (by simp [strLtB, charLtB, h]))

theorem strLtB_trans : ∀ as bs cs : List Char,
    strLtB as bs = true → strLtB bs cs = true → strLtB as cs = true
  | [], [], _, h1, _ => by simp [strLtB] at h1
  | [], _ :: _, [], _, h2 => by simp [strLtB] at h2
  | [], _ :: _, _ :: _, _, _ => rfl
  | _ :: _, [], _, h1, _ => by simp [strLtB] at h1
  | _ :: _, _ :: _, [], _, h2 => by simp [strLtB] at h2
  | a :: as, b :: bs, c :: cs, h1, h2 => by
      by_cases hab : a.toNat < b.toNat
      · by_cases hbc : b.toNat < c.toNat
        · simp [strLtB, charLtB, Nat.lt_trans hab hbc]
        · have h2' : b.toNat = c.toNat ∧ strLtB bs cs = true := by
            simpa [strLtB, charLtB, hbc] using h2
          simp [strLtB, charLtB, h2'.1 ▸ hab]
      · have h1' : a.toNat = b.toNat ∧ strLtB as bs = true := by
          simpa [strLtB, charLtB, hab] using h1
        by_cases hbc : b.toNat < c.toNat
        · simp [strLtB, charLtB, h1'.1 ▸ hbc]
        · have h2' : b.toNat = c.toNat ∧ strLtB bs cs = true := by
            simpa [strLtB, charLtB, hbc] using h2
          have hac : a.toNat = c.toNat := h1'.1.trans h2'.1
          have hlt : ¬ a.toNat < c.toNat := hac ▸ Nat.lt_irrefl a.toNat
          simp [strLtB, charLtB, hlt, hac,
            strLtB_trans as bs cs h1'.2 h2'.2]

/-- Booleanised path comparison: componentwise lexicographic order on full
paths, each component compared bytewise. This is the Ord of PathBuf
(component iterators compared lexicographically, components as byte strings)
that Vec sort uses in load_with_overlays. -/
def pathLeB : List String → List String → Bool
  | [], _ => true
  | _ :: _, [] => false
  | a :: as, b :: bs =>
      if strLtB a.data b.data then true
      else if a.data = b.data then pathLeB as bs else false

/-- The path order as a relation. -/
def pathLe (p q : List String) : Prop := pathLeB p q = true

instance : DecidableRel pathLe :=
  fun p q => inferInstanceAs (Decidable (pathLeB p q = true))

theorem pathLeB_total : ∀ p q : List String, pathLeB p q = true ∨ pathLeB q p = true
  | [], _ => Or.inl rfl
  | _ :: _, [] => Or.inr rfl
  | a :: as, b :: bs => by
      rcases strLtB_trichotomy a.data b.data with h | h | h
      · exact Or.inl (by simp [pathLeB, h])
      · rcases pathLeB_total as bs with h2 | h2
        · exact Or.inl (by simp [pathLeB, h, strLtB_irrefl, h2])
        · exact Or.inr (by simp [pathLeB, h.symm, strLtB_irrefl, h2])
      · exact Or.inr (by simp [pathLeB, h])

instance : IsTotal (List String) pathLe := ⟨pathLeB_total⟩

theorem pathLeB_trans : ∀ p q r : List String,
    pathLeB p q = true → pathLeB q r = true → pathLeB p r = true
  | [], _, _, _, _ => rfl
  | _ :: _, [], _, h, _ => by simp [pathLeB] at h
  | _ :: _, _ :: _, [], _, h => by simp [pathLeB] at h
  | a :: as, b :: bs, c :: cs, h1, h2 => by
      by_cases hab : strLtB a.data b.data = true
      · by_cases hbc : strLtB b.data c.data = true
        · simp [pathLeB, strLtB_trans _ _ _ hab hbc]
        · have h2' : b.data = c.data ∧ pathLeB bs cs = true := by
            simpa [pathLeB, hbc] using h2
          simp [pathLeB, h2'.1 ▸ hab]
      · have h1' : a.data = b.data ∧ pathLeB as bs = true := by
          simpa [pathLeB, hab] using h1
        by_cases hbc : strLtB b.data c.data = true
        · simp [pathLeB, h1'.1 ▸ hbc]
        · have h2' : b.data = c.data ∧ pathLeB bs cs = true := by
            simpa [pathLeB, hbc] using h2
          have hac : a.data = c.data := h1'.1.trans h2'.1
          have hlt : strLtB a.data c.data = false := by
            rw [hac, strLtB_irrefl]
          simp [pathLeB, hlt, hac, pathLeB_trans as bs cs h1'.2 h2'.2]

instance : IsTrans (List String) pathLe := ⟨pathLeB_trans⟩

/-- The file pooling loop of load_with_overlays: for the default overlay
directory followed by every extra directory, in order, every entry whose
extension is yaml or yml is pushed as its full path. -/
def collectOverlayFiles (dirs : List OverlayDir) : List (List String) :=
  dirs.flatMap fun d => (d.files.filter isYamlFile).map fun f => d.path ++ [f]

/-- The pooled overlay file list after the Vec sort: full paths in
componentwise lexicographic byte order (a stable sort, modelled by insertion
sort). -/
def sortedOverlayFiles (dirs : List OverlayDir) : List (List String) :=
  List.insertionSort pathLe (collectOverlayFiles dirs)

/-- load_with_overlays from node_identity/mod.rs at the untyped-tree level:
the base document comes pre-parsed (none models an unreadable or unparsable
base, the hard error), the directory list is the default overlay directory
followed by the caller extras, and readFile gives each pooled file its parsed
contents (none models an unreadable or unparsable overlay, skipped with a
warning). Overlays are applied by deep_merge in sorted full-path order; the
final decode into the typed schema is modelled separately. -/
def mergedOverlayTree (base : Option Yaml) (defaultDir : OverlayDir)
    (extraDirs : List OverlayDir) (readFile : List String → Option Yaml) :
    Except String Yaml :=
  match base with
  | none => .error "failed to parse base identity"
  | some b =>
      .ok ((sortedOverlayFiles (defaultDir :: extraDirs)).foldl
        (fun acc p =>
          match readFile p with
          | some ov => deep_merge acc ov
          | none => acc) b)

/-- C1 counterexample: with 01-x.yaml and 02-y.yaml in the default directory
cfg/a and 00-z.yaml in the extra directory cfg/b, the sort orders FULL paths,
so the application order is 01-x, 02-y, 00-z — not the pooled-filename order
00-z, 01-x, 02-y the claim states — and the merged value shows it: all three
overlays set key v, and the survivor is the value of 00-z (applied last), not
that of 02-y. -/
theorem c1_counterexample :
    (sortedOverlayFiles
        [⟨["cfg", "a"], ["01-x.yaml", "02-y.yaml"]⟩,
         ⟨["cfg", "b"], ["00-z.yaml"]⟩] =
      [["cfg", "a", "01-x.yaml"], ["cfg", "a", "02-y.yaml"],
       ["cfg", "b", "00-z.yaml"]]) ∧
    (sortedOverlayFiles
        [⟨["cfg", "a"], ["01-x.yaml", "02-y.yaml"]⟩,
         ⟨["cfg", "b"], ["00-z.yaml"]⟩] ≠
      [["cfg", "b", "00-z.yaml"], ["cfg", "a", "01-x.yaml"],
       ["cfg", "a", "02-y.yaml"]]) ∧
    (mergedOverlayTree (some (.map .nil)) ⟨["cfg", "a"], ["01-x.yaml", "02-y.yaml"]⟩
        [⟨["cfg", "b"], ["00-z.yaml"]⟩]
        (fun p =>
          if p = ["cfg", "a", "01-x.yaml"] then
            some (.map (.cons (.str "v") (.str "x") .nil))
          else if p = ["cfg", "a", "02-y.yaml"] then
            some (.map (.cons (.str "v") (.str "y") .nil))
          else if p = ["cfg", "b", "00-z.yaml"] then
            some (.map (.cons (.str "v") (.str "z") .nil))
          else none) =
      .ok (.map (.cons (.str "v") (.str "z") .nil))) := by
  refine ⟨by decide, by decide, by decide⟩

/-- C1 amended: load_with_overlays pools the overlay files of the default
directory and every extra directory into one list, sorts that list by FULL
path in componentwise lexicographic byte order (so directory origin does
affect the order), and applies the overlays by deep-merge in exactly that
sorted order; an unparsable base is a hard error. In the claimed scenario
(01-x.yaml and 02-y.yaml in default directory cfg/a, 00-z.yaml in extra
directory cfg/b) the application order is 01-x, 02-y, 00-z. -/
theorem c1_overlay_order_amended :
    (∀ (base : Yaml) (defaultDir : OverlayDir) (extraDirs : List OverlayDir)
      (readFile : List String → Option Yaml),
      List.Sorted pathLe (sortedOverlayFiles (defaultDir :: extraDirs)) ∧
      (sortedOverlayFiles (defaultDir :: extraDirs)).Perm
        (collectOverlayFiles (defaultDir :: extraDirs)) ∧
      mergedOverlayTree (some base) defaultDir extraDirs readFile =
        .ok ((sortedOverlayFiles (defaultDir :: extraDirs)).foldl
          (fun acc p =>
            match readFile p with
            | some ov => deep_merge acc ov
            | none => acc) base) ∧
      mergedOverlayTree none defaultDir extraDirs readFile =
        .error "failed to parse base identity") ∧
    sortedOverlayFiles
        [⟨["cfg", "a"], ["01-x.yaml", "02-y.yaml"]⟩,
         ⟨["cfg", "b"], ["00-z.yaml"]⟩] =
      [["cfg", "a", "01-x.yaml"], ["cfg", "a", "02-y.yaml"],
       ["cfg", "b", "00-z.yaml"]] := by
  refine ⟨fun base defaultDir extraDirs readFile =>
    ⟨List.sorted_insertionSort pathLe _, List.perm_insertionSort pathLe _,
      rfl, rfl⟩, by decide⟩

/-! Runtime report data model from domain/node_report.rs. Unsigned machine
integers become Nat, signed ones Int, f64 fields become Rat (they are inert
data, never computed with), DateTime values become Int unix seconds. -/

/-- DiskSnapshot from node_report.rs. -/
structure DiskSnapshot where
  device : String
  mount_point : String
  filesystem : String
  total_bytes : Nat
  used_bytes : Nat
  available_bytes : Nat
  smart_healthy : Option Bool
  deriving DecidableEq, Repr

/-- GpuSnapshot from node_report.rs. -/
structure GpuSnapshot where
  name : String
  vendor : String
  vram_bytes : Option Nat
  metal_support : Option String
  deriving DecidableEq, Repr

/-- TemperatureReading from node_report.rs. -/
structure TemperatureReading where
  label : String
  celsius : Rat
  deriving DecidableEq, Repr

/-- PowerSnapshot from node_report.rs. -/
structure PowerSnapshot where
  on_battery : Bool
  charge_percent : Option Rat
  charging : Bool
  time_remaining_minutes : Option Nat
  deriving DecidableEq, Repr

/-- HardwareSnapshot from node_report.rs. -/
structure HardwareSnapshot where
  cpu_model : String
  cpu_vendor : String
  cpu_architecture : String
  cpu_cores : Nat
  cpu_threads : Nat
  cpu_frequency_mhz : Option Nat
  cpu_cache_bytes : Option Nat
  ram_total_bytes : Nat
  ram_available_bytes : Nat
  swap_total_bytes : Nat
  swap_used_bytes : Nat
  disks : List DiskSnapshot
  gpus : List GpuSnapshot
  temperatures : List TemperatureReading
  power : Option PowerSnapshot
  deriving DecidableEq, Repr

/-- OsSnapshot from node_report.rs. -/
structure OsSnapshot where
  distribution : String
  version : String
  kernel_version : String
  architecture : String
  platform_triple : String
  hostname : String
  product_name : Option String
  build_id : Option String
  systemd_version : Option String
  boot_time : Option Int
  uptime_secs : Nat
  timezone : Option String
  is_wsl : Bool
  virtualization : Option String
  deriving DecidableEq, Repr

/-- InterfaceSnapshot from node_report.rs. -/
structure InterfaceSnapshot where
  name : String
  state : String
  addresses : List String
  mac : Option String
  mtu : Option Nat
  rx_bytes : Nat
  tx_bytes : Nat
  speed_mbps : Option Nat
  interface_type : Option String
  deriving DecidableEq, Repr

/-- RouteSnapshot from node_report.rs. -/
structure RouteSnapshot where
  destination : String
  gateway : Option String
  interface : String
  deriving DecidableEq, Repr

/-- ListeningPort from node_report.rs. -/
structure ListeningPort where
  port : Nat
  protocol : String
  address : Option String
  process : Option String
  deriving DecidableEq, Repr

/-- NetworkSnapshot from node_report.rs. -/
structure NetworkSnapshot where
  hostname : String
  interfaces : List InterfaceSnapshot
  routes : List RouteSnapshot
  dns_resolvers : List String
  default_gateway : Option String
  listening_ports : List ListeningPort
  deriving DecidableEq, Repr

/-- NixSnapshot from node_report.rs. -/
structure NixSnapshot where
  nix_version : String
  store_size_bytes : Nat
  store_path_count : Nat
  gc_roots_count : Nat
  last_rebuild_timestamp : Option Int
  current_system_path : Option String
  substituters : List String
  system_generations : Nat
  channels : List String
  trusted_users : List String
  max_jobs : Option String
  sandbox_enabled : Bool
  deriving DecidableEq, Repr

/-- K8sCondition from node_report.rs. -/
structure K8sCondition where
  condition_type : String
  status : String
  message : Option String
  deriving DecidableEq, Repr

/-- K8sSnapshot from node_report.rs. -/
structure K8sSnapshot where
  k3s_version : Option String
  node_ready : Bool
  pod_count : Nat
  namespace_count : Nat
  conditions : List K8sCondition
  cpu_requests_millis : Nat
  cpu_limits_millis : Nat
  memory_requests_bytes : Nat
  memory_limits_bytes : Nat
  flux_installed : Option Bool
  helm_releases : Option Nat
  deriving DecidableEq, Repr

/-- DiskUsage from node_report.rs. -/
structure DiskUsage where
  mount_point : String
  usage_percent : Rat
  deriving DecidableEq, Repr

/-- HealthMetrics from node_report.rs. -/
structure HealthMetrics where
  load_average_1m : Rat
  load_average_5m : Rat
  load_average_15m : Rat
  memory_usage_percent : Rat
  swap_usage_percent : Rat
  cpu_usage_percent : Rat
  disk_usage : List DiskUsage
  open_file_descriptors : Option Nat
  max_file_descriptors : Option Nat
  deriving DecidableEq, Repr

/-- ProcessInfo from node_report.rs. -/
structure ProcessInfo where
  pid : Nat
  name : String
  cpu_percent : Rat
  memory_percent : Rat
  deriving DecidableEq, Repr

/-- ProcessSnapshot from node_report.rs. -/
structure ProcessSnapshot where
  total_processes : Nat
  running_processes : Nat
  zombie_processes : Nat
  top_cpu : List ProcessInfo
  top_memory : List ProcessInfo
  deriving DecidableEq, Repr

/-- CertStatus from node_report.rs. -/
structure CertStatus where
  domain : String
  expiry : Option Int
  days_until_expiry : Option Int
  issuer : Option String
  deriving DecidableEq, Repr

/-- SecuritySnapshot from node_report.rs. -/
structure SecuritySnapshot where
  ssh_keys_deployed : List String
  tls_certificates : List CertStatus
  firewall_active : Bool
  firewall_rules_count : Nat
  firewall_backend : Option String
  sshd_running : Bool
  root_login_allowed : Bool
  password_auth_enabled : Bool
  deriving DecidableEq, Repr

/-- NodeReport from node_report.rs: the complete runtime snapshot. -/
structure NodeReport where
  timestamp : Int
  daemon_version : String
  hostname : String
  hardware : HardwareSnapshot
  os : OsSnapshot
  network : NetworkSnapshot
  nix : NixSnapshot
  kubernetes : Option K8sSnapshot
  health : HealthMetrics
  security : SecuritySnapshot
  processes : ProcessSnapshot
  deriving DecidableEq, Repr

/-- StoredReport from node_report.rs: the integrity envelope. -/
structure StoredReport where
  checksum : String
  collected_at : Int
  collector_version : String
  report : NodeReport
  deriving DecidableEq, Repr

/-- StoredReport new: wrap a report, computing checksum sha256 hex over the
serde_json serialization and stamping the clock. The serde_json encoder and
the sha2 digest are external crates and enter as function parameters; a
serialization failure collapses to the empty string identically in new and
verify (unwrap_or_default), so both always apply the same total functions. -/
def StoredReport.new (serializeReport : NodeReport → String)
    (sha256Hex : String → String) (now : Int) (collectorVersion : String)
    (report : NodeReport) : StoredReport :=
  { checksum := "sha256:" ++ sha256Hex (serializeReport report)
    collected_at := now
    collector_version := collectorVersion
    report := report }

/-- StoredReport verify: recompute the checksum from the contained report and
compare by string equality. -/
def StoredReport.verify (s : StoredReport)
    (serializeReport : NodeReport → String) (sha256Hex : String → String) :
    Bool :=
  s.checksum == "sha256:" ++ sha256Hex (serializeReport s.report)

/-- StoredReport age_secs: seconds between the clock and collected_at
(chrono signed_duration_since num_seconds; DateTime arithmetic at second
granularity is exact and cannot wrap for representable times). -/
def StoredReport.age_secs (s : StoredReport) (now : Int) : Int :=
  now - s.collected_at

/-- The Rust u64 to i64 `as` cast: keep the low 64 bits, reinterpreted in two
complement. -/
def u64ToI64 (n : Nat) : Int :=
  if n % 2 ^ 64 < 2 ^ 63 then (n % 2 ^ 64 : Int) else (n % 2 ^ 64 : Int) - 2 ^ 64

/-- StoredReport is_stale: age strictly greater than max_age_secs cast from
u64 to i64. -/
def StoredReport.is_stale (s : StoredReport) (now : Int) (max_age_secs : Nat) :
    Bool :=
  decide (s.age_secs now > u64ToI64 max_age_secs)

/-! Section defaults from report_collector.rs (error fallback values). -/

/-- default_hardware from report_collector.rs. -/
def default_hardware : HardwareSnapshot :=
  { cpu_model := "unknown", cpu_vendor := "unknown"
    cpu_architecture := "unknown", cpu_cores := 0, cpu_threads := 0
    cpu_frequency_mhz := none, cpu_cache_bytes := none
    ram_total_bytes := 0, ram_available_bytes := 0
    swap_total_bytes := 0, swap_used_bytes := 0
    disks := [], gpus := [], temperatures := [], power := none }

/-- default_os from report_collector.rs. -/
def default_os : OsSnapshot :=
  { distribution := "unknown", version := "unknown"
    kernel_version := "unknown", architecture := "unknown"
    platform_triple := "unknown", hostname := "unknown"
    product_name := none, build_id := none, systemd_version := none
    boot_time := none, uptime_secs := 0, timezone := none
    is_wsl := false, virtualization := none }

/-- default_network from report_collector.rs. -/
def default_network : NetworkSnapshot :=
  { hostname := "unknown", interfaces := [], routes := []
    dns_resolvers := [], default_gateway := none, listening_ports := [] }

/-- default_nix from report_collector.rs. -/
def default_nix : NixSnapshot :=
  { nix_version := "unknown", store_size_bytes := 0, store_path_count := 0
    gc_roots_count := 0, last_rebuild_timestamp := none
    current_system_path := none, substituters := []
    system_generations := 0, channels := [], trusted_users := []
    max_jobs := none, sandbox_enabled := false }

/-- default_health from report_collector.rs. -/
def default_health : HealthMetrics :=
  { load_average_1m := 0, load_average_5m := 0, load_average_15m := 0
    memory_usage_percent := 0, swap_usage_percent := 0
    cpu_usage_percent := 0, disk_usage := []
    open_file_descriptors := none, max_file_descriptors := none }

/-- default_security from report_collector.rs. -/
def default_security : SecuritySnapshot :=
  { ssh_keys_deployed := [], tls_certificates := [], firewall_active := false
    firewall_rules_count := 0, firewall_backend := none
    sshd_running := false, root_login_allowed := true
    password_auth_enabled := true }

/-- default_processes from report_collector.rs. -/
def default_processes : ProcessSnapshot :=
  { total_processes := 0, running_processes := 0, zombie_processes := 0
    top_cpu := [], top_memory := [] }

/-- A concrete report for concrete-input theorems: the assembly of an
all-default collection cycle. -/
def sampleReport : NodeReport :=
  { timestamp := 0, daemon_version := "0.1.0", hostname := "node-a"
    hardware := default_hardware, os := default_os
    network := default_network, nix := default_nix, kubernetes := none
    health := default_health, security := default_security
    processes := default_processes }

/-- A concrete stored envelope with an arbitrary checksum string. -/
def sampleStored : StoredReport :=
  { checksum := "sha256:0", collected_at := 0
    collector_version := "0.1.0", report := sampleReport }

/-- C5: wrapping any report and then verifying always succeeds, because new
stores exactly the hash of the canonical serialization that verify recomputes
with the same serializer and digest, compared by value equality; this holds
for every digest and serializer function, every clock value and every
version string. -/
theorem c5_wrap_verify :
    ∀ (serializeReport : NodeReport → String) (sha256Hex : String → String)
      (now : Int) (ver : String) (r : NodeReport),
      (StoredReport.new serializeReport sha256Hex now ver r).verify
        serializeReport sha256Hex = true := by
  intro serializeReport sha256Hex now ver r
  simp [StoredReport.new, StoredReport.verify]

/-- C9 counterexample: at max_age_secs two to the 63 (a value every u64
configuration field admits), the cast to i64 in is_stale wraps negative, so
a freshly collected report (age zero) is reported stale even though its age
does not exceed max_age_secs; the claimed equivalence fails, as does the
claim that a non-positive age is never stale. -/
theorem c9_counterexample :
    StoredReport.is_stale sampleStored 0 (2 ^ 63) = true ∧
    ¬ (sampleStored.age_secs 0 > ((2 : Int) ^ 63)) := by
  refine ⟨by decide, by decide⟩

/-- C9 amended: for every max_age_secs below two to the 63 (everything
representable in i64, hence every realistic configuration), is_stale is true
iff age_secs exceeds max_age_secs; the boundary age equal to max_age is not
stale; and a negative age (clock skew) does not panic and is never stale.
For larger values the u64 to i64 cast wraps negative and everything is
reported stale. -/
theorem c9_is_stale_amended :
    ∀ (s : StoredReport) (now : Int) (maxAge : Nat), maxAge < 2 ^ 63 →
      (s.is_stale now maxAge = true ↔ s.age_secs now > (maxAge : Int)) ∧
      (s.age_secs now = (maxAge : Int) → s.is_stale now maxAge = false) ∧
      (s.age_secs now < 0 → s.is_stale now maxAge = false) := by
  intro s now maxAge hlt
  have hcast : u64ToI64 maxAge = (maxAge : Int) := by
    simp only [u64ToI64]
    split <;> omega
  refine ⟨?_, ?_, ?_⟩
  · simp [StoredReport.is_stale, hcast]
  · intro hb
    simp [StoredReport.is_stale, hcast, hb]
  · intro hneg
    have : ¬ s.age_secs now > (maxAge : Int) := by
      have h0 : (0 : Int) ≤ (maxAge : Int) := Int.ofNat_nonneg maxAge
      omega
    simp [StoredReport.is_stale, hcast, this]

/-- Witness for the amended C9: with the default configuration value 600, a
report of age exactly 600 is not stale, one of age 601 is stale, and a
negative age (collected one second in the future) is not stale. -/
theorem c9_is_stale_amended_witness :
    StoredReport.is_stale sampleStored 600 600 = false ∧
    StoredReport.is_stale sampleStored 601 600 = true ∧
    StoredReport.is_stale sampleStored (-1) 600 = false := by
  refine ⟨(c9_is_stale_amended sampleStored 600 600 (by decide)).2.1 (by decide),
    ?_, (c9_is_stale_amended sampleStored (-1) 600 (by decide)).2.2 (by decide)⟩
  exact (c9_is_stale_amended sampleStored 601 600 (by decide)).1.2 (by decide)

/-- The state of the persisted report file: missing, present but not
deserializable as a StoredReport, or deserializable to a given envelope. -/
inductive FileState where
  | missing : FileState
  | unparsable : FileState
  | parsed (stored : StoredReport) : FileState
  deriving DecidableEq, Repr

/-- ReportStore read errors, one per bail site of report_store.rs: the
read_to_string context error (missing file or other IO failure), the
serde_json parse context error, and the explicit checksum bail. -/
inductive ReadError where
  | ioError : ReadError
  | parseError : ReadError
  | checksumMismatch : ReadError
  deriving DecidableEq, Repr

/-- ReportStore read from report_store.rs: read the target file, parse it,
then verify the checksum; a verification failure is reported as a
checksum-mismatch error and the unverified value is never returned. -/
def ReportStore.read (serializeReport : NodeReport → String)
    (sha256Hex : String → String) (file : FileState) :
    Except ReadError StoredReport :=
  match file with
  | .missing => .error .ioError
  | .unparsable => .error .parseError
  | .parsed stored =>
      if stored.verify serializeReport sha256Hex then .ok stored
      else .error .checksumMismatch

/-- C3: read returns ok exactly when the file exists, deserializes, and the
envelope passes checksum verification; a deserialized envelope that fails
verification yields the checksum-mismatch error (the unverified value is
never returned); a missing file fails cleanly with the read error. -/
theorem c3_read_verifies :
    ∀ (serializeReport : NodeReport → String) (sha256Hex : String → String)
      (file : FileState),
      (∀ stored : StoredReport,
        ReportStore.read serializeReport sha256Hex file = .ok stored ↔
          (file = .parsed stored ∧
            stored.verify serializeReport sha256Hex = true)) ∧
      (∀ stored : StoredReport, file = .parsed stored →
        stored.verify serializeReport sha256Hex = false →
        ReportStore.read serializeReport sha256Hex file =
          .error .checksumMismatch) ∧
      (file = .missing →
        ReportStore.read serializeReport sha256Hex file = .error .ioError) := by
  intro serializeReport sha256Hex file
  refine ⟨fun stored => ?_, fun stored hf hv => ?_, fun hf => ?_⟩
  · constructor
    · intro h
      cases file with
      | missing => simp [ReportStore.read] at h
      | unparsable => simp [ReportStore.read] at h
      | parsed s0 =>
          by_cases hv : s0.verify serializeReport sha256Hex = true
          · have hs : s0 = stored := by
              simpa [ReportStore.read, hv] using h
            subst hs
            exact ⟨rfl, hv⟩
          · simp [ReportStore.read, hv] at h
    · rintro ⟨rfl, hv⟩
      simp [ReportStore.read, hv]
  · subst hf
    simp [ReportStore.read, hv]
  · subst hf
    rfl

/-- Witness for C3: a parsed envelope whose stored checksum disagrees with
the recomputed one errors with checksumMismatch, one that agrees round-trips,
and a missing file errors cleanly; digest and serializer instantiated with
concrete functions. -/
theorem c3_read_verifies_witness :
    (ReportStore.read (fun _ => "payload") (fun s => s)
        (.parsed sampleStored) = .error .checksumMismatch) ∧
    (ReportStore.read (fun _ => "0") (fun s => s)
        (.parsed sampleStored) = .ok sampleStored) ∧
    (ReportStore.read (fun _ => "payload") (fun s => s) .missing =
      .error .ioError) := by
  obtain ⟨h1, h2, h3⟩ :=
    c3_read_verifies (fun _ => "payload") (fun s => s) (.parsed sampleStored)
  refine ⟨h2 sampleStored rfl (by decide), ?_, ?_⟩
  · exact ((c3_read_verifies (fun _ => "0") (fun s => s)
      (.parsed sampleStored)).1 sampleStored).2 ⟨rfl, by decide⟩
  · exact (c3_read_verifies (fun _ => "payload") (fun s => s) .missing).2.2 rfl

/-- NodeService refresh from node_service.rs, as a transition on the cache
slot and the file state: the collect outcome of this cycle and the success
of the atomic write enter as inputs (the atomic temp-file-then-rename
discipline leaves the target file unchanged when a write fails); on success
the freshly wrapped envelope is persisted and then cloned into the cache,
and returned; a collect or write error is propagated and both slots keep
their prior values. -/
def NodeService.refresh (serializeReport : NodeReport → String)
    (sha256Hex : String → String) (cache : Option StoredReport)
    (file : FileState) (collectResult : Except String NodeReport)
    (writeOk : Bool) (now : Int) (version : String) :
    Option StoredReport × FileState × Except String StoredReport :=
  match collectResult with
  | .error e => (cache, file, .error e)
  | .ok report =>
      let stored := StoredReport.new serializeReport sha256Hex now version report
      if writeOk then (some stored, .parsed stored, .ok stored)
      else (cache, file, .error "write failed")

/-- C4: refresh is all-or-nothing with respect to the visible cache: either
it succeeds, returning the newly wrapped envelope after persisting it and
replacing the cache slot with exactly that envelope (so the cache is updated
only when the durable write succeeded), or it fails with a collection or
write error and the cache (and file) keep their prior values. -/
theorem c4_refresh_all_or_nothing :
    ∀ (serializeReport : NodeReport → String) (sha256Hex : String → String)
      (cache : Option StoredReport) (file : FileState)
      (collectResult : Except String NodeReport) (writeOk : Bool)
      (now : Int) (version : String),
      (∃ stored : StoredReport,
        NodeService.refresh serializeReport sha256Hex cache file collectResult
            writeOk now version =
          (some stored, .parsed stored, .ok stored) ∧
        writeOk = true ∧
        ∃ report : NodeReport, collectResult = .ok report ∧
          stored = StoredReport.new serializeReport sha256Hex now version
            report) ∨
      (∃ e : String,
        NodeService.refresh serializeReport sha256Hex cache file collectResult
            writeOk now version = (cache, file, .error e)) := by
  intro serializeReport sha256Hex cache file collectResult writeOk now version
  cases collectResult with
  | error e => exact Or.inr ⟨e, rfl⟩
  | ok report =>
      cases writeOk with
      | true =>
          exact Or.inl ⟨_, by simp [NodeService.refresh], rfl, report, rfl, rfl⟩
      | false => exact Or.inr ⟨"write failed", by simp [NodeService.refresh]⟩

/-- The outcome of each independent section probe of one collection cycle
(the probes spawn external platform processes, so their results are inputs
to the model). -/
structure ProbeResults where
  hardware : Except String HardwareSnapshot
  os : Except String OsSnapshot
  network : Except String NetworkSnapshot
  nix : Except String NixSnapshot
  health : Except String HealthMetrics
  security : Except String SecuritySnapshot
  processes : Except String ProcessSnapshot
  kubernetes : Except String K8sSnapshot

/-- ReportCollector collect from report_collector.rs: assemble the report
from the joined probe outcomes, substituting each failed section by its
explicit zero-value default (with a logged warning), demoting the kubernetes
probe to an Option via ok(), and stamping the timestamp once at assembly.
The function never constructs an error value. -/
def ReportCollector.collect (now : Int) (daemonVersion hostname : String)
    (probes : ProbeResults) : Except String NodeReport :=
  .ok
    { timestamp := now
      daemon_version := daemonVersion
      hostname := hostname
      hardware :=
        match probes.hardware with
        | .ok h => h
        | .error _ => default_hardware
      os :=
        match probes.os with
        | .ok o => o
        | .error _ => default_os
      network :=
        match probes.network with
        | .ok n => n
        | .error _ => default_network
      nix :=
        match probes.nix with
        | .ok n => n
        | .error _ => default_nix
      kubernetes := probes.kubernetes.toOption
      health :=
        match probes.health with
        | .ok h => h
        | .error _ => default_health
      security :=
        match probes.security with
        | .ok s => s
        | .error _ => default_security
      processes :=
        match probes.processes with
        | .ok p => p
        | .error _ => default_processes }

/-- C6: collect always succeeds: for every combination of probe outcomes it
returns ok, each failed probe contributes exactly that section zero-value
default while a successful probe contributes its value unchanged (sections
are independent), a failed kubernetes probe yields none, and in particular
total failure of every probe still yields a valid, mostly-default report. -/
theorem c6_collect_total :
    ∀ (now : Int) (daemonVersion hostname : String) (probes : ProbeResults),
      ∃ r : NodeReport,
        ReportCollector.collect now daemonVersion hostname probes = .ok r ∧
        r.timestamp = now ∧
        r.daemon_version = daemonVersion ∧ r.hostname = hostname ∧
        (∀ e, probes.hardware = .error e → r.hardware = default_hardware) ∧
        (∀ h, probes.hardware = .ok h → r.hardware = h) ∧
        (∀ e, probes.os = .error e → r.os = default_os) ∧
        (∀ o, probes.os = .ok o → r.os = o) ∧
        (∀ e, probes.network = .error e → r.network = default_network) ∧
        (∀ n, probes.network = .ok n → r.network = n) ∧
        (∀ e, probes.nix = .error e → r.nix = default_nix) ∧
        (∀ n, probes.nix = .ok n → r.nix = n) ∧
        (∀ e, probes.kubernetes = .error e → r.kubernetes = none) ∧
        (∀ k, probes.kubernetes = .ok k → r.kubernetes = some k) ∧
        (∀ e, probes.health = .error e → r.health = default_health) ∧
        (∀ h, probes.health = .ok h → r.health = h) ∧
        (∀ e, probes.security = .error e → r.security = default_security) ∧
        (∀ s, probes.security = .ok s → r.security = s) ∧
        (∀ e, probes.processes = .error e → r.processes = default_processes) ∧
        (∀ p, probes.processes = .ok p → r.processes = p) := by
  intro now daemonVersion hostname probes
  refine ⟨_, rfl, rfl, rfl, rfl, ?_⟩
  refine ⟨fun e he => ?_, fun h hh => ?_, fun e he => ?_, fun o ho => ?_,
    fun e he => ?_, fun n hn => ?_, fun e he => ?_, fun n hn => ?_,
    fun e he => ?_, fun k hk => ?_, fun e he => ?_, fun h hh => ?_,
    fun e he => ?_, fun s hs => ?_, fun e he => ?_, fun p hp => ?_⟩ <;>
    simp_all [Except.toOption]

/-- Witness for C6: a cycle in which every probe failed still assembles the
all-default report, and a mixed cycle keeps the successful section. -/
theorem c6_collect_total_witness :
    (∃ r : NodeReport,
      ReportCollector.collect 0 "0.1.0" "node-a"
          ⟨.error "h", .error "o", .error "n", .error "x", .error "he",
           .error "s", .error "p", .error "k"⟩ = .ok r ∧
        r.hardware = default_hardware ∧ r.kubernetes = none) ∧
    (∃ r : NodeReport,
      ReportCollector.collect 0 "0.1.0" "node-a"
          ⟨.ok default_hardware, .error "o", .error "n", .error "x",
           .error "he", .error "s", .error "p", .error "k"⟩ = .ok r ∧
        r.hardware = default_hardware ∧ r.os = default_os) := by
  constructor
  · obtain ⟨r, hok, _, _, _, hhw, _, _, _, _, _, _, _, hk8, _, _⟩ :=
      c6_collect_total 0 "0.1.0" "node-a"
        ⟨.error "h", .error "o", .error "n", .error "x", .error "he",
         .error "s", .error "p", .error "k"⟩
    exact ⟨r, hok, hhw "h" rfl, hk8 "k" rfl⟩
  · obtain ⟨r, hok, _, _, _, _, hhw, hos, _, _⟩ :=
      c6_collect_total 0 "0.1.0" "node-a"
        ⟨.ok default_hardware, .error "o", .error "n", .error "x",
         .error "he", .error "s", .error "p", .error "k"⟩
    exact ⟨r, hok, hhw default_hardware rfl, hos "o" rfl⟩

/-! Declared identity schema from node_identity/mod.rs. HashMap fields are
modelled as association lists (hash iteration order is unspecified, and the
claims never depend on it); serde_json Value payload fields are modelled as
untyped Yaml trees. rustDefault mirrors the derived Default implementation
(fieldwise zero values; note the serde per-field defaults such as the shell
or trusted_users only apply during deserialization, not in Default). -/

/-- UserConfig from node_identity/mod.rs. -/
structure UserConfig where
  name : String
  uid : Nat
  shell : String
  email : String
  deriving DecidableEq, Repr

/-- Derived Default for UserConfig. -/
def UserConfig.rustDefault : UserConfig :=
  { name := "", uid := 0, shell := "", email := "" }

/-- TlsCertificate from node_identity/mod.rs. -/
structure TlsCertificate where
  domain : String
  cert_file : Option String
  key_file : Option String
  issuer : Option String
  deriving DecidableEq, Repr

/-- SecretsConfig from node_identity/mod.rs. -/
structure SecretsConfig where
  provider : String
  age_key_file : Option String
  ssh_authorized_keys : List String
  tls_certificates : List TlsCertificate
  age_keys : List String
  deriving DecidableEq, Repr

/-- Derived Default for SecretsConfig. -/
def SecretsConfig.rustDefault : SecretsConfig :=
  { provider := "", age_key_file := none, ssh_authorized_keys := []
    tls_certificates := [], age_keys := [] }

/-- CpuConfig from node_identity/mod.rs. -/
structure CpuConfig where
  vendor : String
  cores : Option Nat
  threads : Option Nat
  model : Option String
  deriving DecidableEq, Repr

/-- Derived Default for CpuConfig. -/
def CpuConfig.rustDefault : CpuConfig :=
  { vendor := "", cores := none, threads := none, model := none }

/-- MemoryConfig from node_identity/mod.rs. -/
structure MemoryConfig where
  size_gb : Rat
  deriving DecidableEq, Repr

/-- DiskConfig from node_identity/mod.rs. -/
structure DiskConfig where
  device : String
  size : Option String
  disk_type : Option String
  mount_point : Option String
  deriving DecidableEq, Repr

/-- GpuConfig from node_identity/mod.rs. -/
structure GpuConfig where
  vendor : String
  model : Option String
  vram_mb : Option Nat
  deriving DecidableEq, Repr

/-- NicConfig from node_identity/mod.rs. -/
structure NicConfig where
  name : String
  mac : Option String
  speed_mbps : Option Nat
  deriving DecidableEq, Repr

/-- KernelConfig from node_identity/mod.rs. -/
structure KernelConfig where
  modules : List String
  params : List String
  deriving DecidableEq, Repr

/-- Derived Default for KernelConfig. -/
def KernelConfig.rustDefault : KernelConfig := { modules := [], params := [] }

/-- HardwareConfig from node_identity/mod.rs. -/
structure HardwareConfig where
  platform : String
  cpu : CpuConfig
  memory : Option MemoryConfig
  disks : List DiskConfig
  gpus : List GpuConfig
  network_interfaces : List NicConfig
  kernel : KernelConfig
  filesystems : Yaml
  deriving DecidableEq, Repr

/-- Derived Default for HardwareConfig (serde_json Value defaults to Null). -/
def HardwareConfig.rustDefault : HardwareConfig :=
  { platform := "", cpu := CpuConfig.rustDefault, memory := none
    disks := [], gpus := [], network_interfaces := []
    kernel := KernelConfig.rustDefault, filesystems := .null }

/-- SshBuilderConfig from node_identity/mod.rs. -/
structure SshBuilderConfig where
  hostname : String
  fqdn : String
  identity_file : Option String
  deriving DecidableEq, Repr

/-- CloudflareTunnelConfig from node_identity/mod.rs. -/
structure CloudflareTunnelConfig where
  user : String
  domain_suffix : String
  hosts : List String
  deriving DecidableEq, Repr

/-- SshConfig from node_identity/mod.rs. -/
structure SshConfig where
  builder : Option SshBuilderConfig
  cloudflare_tunnel : Option CloudflareTunnelConfig
  deriving DecidableEq, Repr

/-- Derived Default for SshConfig. -/
def SshConfig.rustDefault : SshConfig :=
  { builder := none, cloudflare_tunnel := none }

/-- NetworkInterface from node_identity/mod.rs. -/
structure NetworkInterface where
  address : Option String
  prefix_length : Option Nat
  gateway : Option String
  mac : Option String
  mtu : Option Nat
  deriving DecidableEq, Repr

/-- FirewallConfig from node_identity/mod.rs. -/
structure FirewallConfig where
  allowed_tcp_ports : List Nat
  allowed_udp_ports : List Nat
  rules : List String
  deriving DecidableEq, Repr

/-- Derived Default for FirewallConfig. -/
def FirewallConfig.rustDefault : FirewallConfig :=
  { allowed_tcp_ports := [], allowed_udp_ports := [], rules := [] }

/-- VpnPeerConfig from node_identity/mod.rs. -/
structure VpnPeerConfig where
  public_key : Option String
  endpoint : Option String
  allowed_ips : List String
  deriving DecidableEq, Repr

/-- NetworkConfig from node_identity/mod.rs. -/
structure NetworkConfig where
  ssh : SshConfig
  interfaces : List (String × NetworkInterface)
  hosts : List (String × String)
  firewall : FirewallConfig
  dns_servers : List String
  ntp_servers : List String
  vpn : List VpnPeerConfig
  deriving DecidableEq, Repr

/-- Derived Default for NetworkConfig. -/
def NetworkConfig.rustDefault : NetworkConfig :=
  { ssh := SshConfig.rustDefault, interfaces := [], hosts := []
    firewall := FirewallConfig.rustDefault, dns_servers := []
    ntp_servers := [], vpn := [] }

/-- AtticConfig from node_identity/mod.rs. -/
structure AtticConfig where
  token_file : Option String
  netrc_file : Option String
  deriving DecidableEq, Repr

/-- Derived Default for AtticConfig. -/
def AtticConfig.rustDefault : AtticConfig :=
  { token_file := none, netrc_file := none }

/-- NixNodeConfig from node_identity/mod.rs. -/
structure NixNodeConfig where
  trusted_users : List String
  attic : AtticConfig
  deriving DecidableEq, Repr

/-- Derived Default for NixNodeConfig: fieldwise defaults, so trusted_users
is the empty list here (the root default applies only at deserialization). -/
def NixNodeConfig.rustDefault : NixNodeConfig :=
  { trusted_users := [], attic := AtticConfig.rustDefault }

/-- ClusterConfig from node_identity/mod.rs. -/
structure ClusterConfig where
  name : String
  server : String
  deriving DecidableEq, Repr

/-- KubernetesConfig from node_identity/mod.rs. -/
structure KubernetesConfig where
  role : Option String
  cluster_cidr : Option String
  service_cidr : Option String
  clusters : List ClusterConfig
  server_addr : Option String
  node_labels : List (String × String)
  node_taints : List String
  deriving DecidableEq, Repr

/-- Derived Default for KubernetesConfig. -/
def KubernetesConfig.rustDefault : KubernetesConfig :=
  { role := none, cluster_cidr := none, service_cidr := none, clusters := []
    server_addr := none, node_labels := [], node_taints := [] }

/-- FluxcdConfig from node_identity/mod.rs. -/
structure FluxcdConfig where
  enable : Bool
  source : String
  reconcile : Yaml
  deriving DecidableEq, Repr

/-- Derived Default for FluxcdConfig. -/
def FluxcdConfig.rustDefault : FluxcdConfig :=
  { enable := false, source := "", reconcile := .null }

/-- CustomService from node_identity/mod.rs. -/
structure CustomService where
  name : String
  port : Option Nat
  health_endpoint : Option String
  protocol : String
  deriving DecidableEq, Repr

/-- ServicesConfig from node_identity/mod.rs. -/
structure ServicesConfig where
  custom : List CustomService
  deriving DecidableEq, Repr

/-- Derived Default for ServicesConfig. -/
def ServicesConfig.rustDefault : ServicesConfig := { custom := [] }

/-- OrgConfig from node_identity/mod.rs. -/
structure OrgConfig where
  name : String
  base_dir : String
  github_token_file : Option String
  deriving DecidableEq, Repr

/-- WorkspaceConfig from node_identity/mod.rs. -/
structure WorkspaceConfig where
  orgs : List OrgConfig
  zoekt_repos : List String
  codesearch : Yaml
  deriving DecidableEq, Repr

/-- Derived Default for WorkspaceConfig. -/
def WorkspaceConfig.rustDefault : WorkspaceConfig :=
  { orgs := [], zoekt_repos := [], codesearch := .null }

/-- GitUserConfig from node_identity/mod.rs. -/
structure GitUserConfig where
  name : String
  email : String
  deriving DecidableEq, Repr

/-- Derived Default for GitUserConfig. -/
def GitUserConfig.rustDefault : GitUserConfig := { name := "", email := "" }

/-- GitConfig from node_identity/mod.rs. -/
structure GitConfig where
  user : GitUserConfig
  deriving DecidableEq, Repr

/-- Derived Default for GitConfig. -/
def GitConfig.rustDefault : GitConfig := { user := GitUserConfig.rustDefault }

/-- MaintenanceWindow from node_identity/mod.rs. -/
structure MaintenanceWindow where
  day : Option String
  start_hour : Option Nat
  duration_hours : Option Nat
  deriving DecidableEq, Repr

/-- FleetPeer from node_identity/mod.rs. -/
structure FleetPeer where
  name : String
  hostname : String
  ssh_user : String
  deriving DecidableEq, Repr

/-- FleetConfig from node_identity/mod.rs. -/
structure FleetConfig where
  controller : Option String
  environment : Option String
  owner : Option String
  team : Option String
  tags : List String
  maintenance_windows : List MaintenanceWindow
  dependencies : List String
  peers : List FleetPeer
  deriving DecidableEq, Repr

/-- Derived Default for FleetConfig. -/
def FleetConfig.rustDefault : FleetConfig :=
  { controller := none, environment := none, owner := none, team := none
    tags := [], maintenance_windows := [], dependencies := [], peers := [] }

/-- NodeIdentity from node_identity/mod.rs: the top-level declared identity.
version, profile and hostname are required; every other field carries a
serde default. -/
structure NodeIdentity where
  version : String
  profile : String
  hostname : String
  user : UserConfig
  secrets : SecretsConfig
  hardware : HardwareConfig
  network : NetworkConfig
  nix : NixNodeConfig
  kubernetes : KubernetesConfig
  fluxcd : FluxcdConfig
  services : ServicesConfig
  workspace : WorkspaceConfig
  git : GitConfig
  fleet : FleetConfig
  deriving DecidableEq, Repr

/-! Model of the serde deserializers that the derive macro generates for the
identity schema (serde_yaml from_value). Each struct decoder reads its known
fields from the mapping by name and IGNORES every other key (no
deny_unknown_fields attribute appears in the source); a missing field with no
serde default is an error, a missing defaulted field takes its default, a
present field is decoded strictly. Decoding is modelled lookup-based, which
agrees with the generated iterating deserializer on every duplicate-free
mapping (the only kind serde_yaml parsing produces). -/

/-- Deserialize a String: only a YAML string is accepted. -/
def decString : Yaml → Except String String
  | .str s => .ok s
  | _ => .error "invalid type: expected string"

/-- Deserialize a bool. -/
def decBool : Yaml → Except String Bool
  | .bool b => .ok b
  | _ => .error "invalid type: expected bool"

/-- Deserialize an unsigned integer strictly below the given bound. -/
def decNatBounded (bound : Nat) : Yaml → Except String Nat
  | .int n => if 0 ≤ n ∧ n < bound then .ok n.toNat else .error "out of range"
  | _ => .error "invalid type: expected integer"

/-- Deserialize an f64: integral and floating numbers are accepted. -/
def decF64 : Yaml → Except String Rat
  | .int n => .ok (n : Rat)
  | .float x => .ok x
  | _ => .error "invalid type: expected number"

/-- Deserialize an Option: null is none, anything else is decoded. -/
def decOpt (dec : Yaml → Except String α) : Yaml → Except String (Option α)
  | .null => .ok none
  | v => (dec v).map some

/-- Deserialize every element of a sequence. -/
def decSeqElems (dec : Yaml → Except String α) : YSeq → Except String (List α)
  | .nil => .ok []
  | .cons h t => do
      let x ← dec h
      let xs ← decSeqElems dec t
      .ok (x :: xs)

/-- Deserialize a Vec: only a YAML sequence is accepted. -/
def decList (dec : Yaml → Except String α) : Yaml → Except String (List α)
  | .seq xs => decSeqElems dec xs
  | _ => .error "invalid type: expected sequence"

/-- Deserialize the entries of a string-keyed map. -/
def decMapEntries (dec : Yaml → Except String α) :
    YMap → Except String (List (String × α))
  | .nil => .ok []
  | .cons k v t => do
      let ks ← decString k
      let x ← dec v
      let xs ← decMapEntries dec t
      .ok ((ks, x) :: xs)

/-- Deserialize a HashMap with String keys: only a mapping is accepted. -/
def decStrMap (dec : Yaml → Except String α) :
    Yaml → Except String (List (String × α))
  | .map m => decMapEntries dec m
  | _ => .error "invalid type: expected mapping"

/-- Deserialize a serde_json Value payload: any tree is accepted. -/
def decJson : Yaml → Except String Yaml := fun v => .ok v

/-- A required struct field: absent is an error. -/
def reqField (m : YMap) (name : String) (dec : Yaml → Except String α) :
    Except String α :=
  match m.get (.str name) with
  | some v => dec v
  | none => .error ("missing field " ++ name)

/-- A defaulted struct field: absent takes the serde default. -/
def optField (m : YMap) (name : String) (dec : Yaml → Except String α)
    (dflt : α) : Except String α :=
  match m.get (.str name) with
  | some v => dec v
  | none => .ok dflt

/-- Deserializer for UserConfig. -/
def decodeUserConfig : Yaml → Except String UserConfig
  | .map m => do
      let name ← optField m "name" decString ""
      let uid ← optField m "uid" (decNatBounded (2 ^ 32)) 0
      let shell ← optField m "shell" decString "blzsh"
      let email ← optField m "email" decString ""
      .ok { name := name, uid := uid, shell := shell, email := email }
  | _ => .error "invalid type: expected mapping for UserConfig"

/-- Deserializer for TlsCertificate. -/
def decodeTlsCertificate : Yaml → Except String TlsCertificate
  | .map m => do
      let domain ← reqField m "domain" decString
      let cert_file ← optField m "cert_file" (decOpt decString) none
      let key_file ← optField m "key_file" (decOpt decString) none
      let issuer ← optField m "issuer" (decOpt decString) none
      .ok { domain := domain, cert_file := cert_file, key_file := key_file
            issuer := issuer }
  | _ => .error "invalid type: expected mapping for TlsCertificate"

/-- Deserializer for SecretsConfig. -/
def decodeSecretsConfig : Yaml → Except String SecretsConfig
  | .map m => do
      let provider ← optField m "provider" decString "sops"
      let age_key_file ← optField m "age_key_file" (decOpt decString) none
      let ssh_authorized_keys ←
        optField m "ssh_authorized_keys" (decList decString) []
      let tls_certificates ←
        optField m "tls_certificates" (decList decodeTlsCertificate) []
      let age_keys ← optField m "age_keys" (decList decString) []
      .ok { provider := provider, age_key_file := age_key_file
            ssh_authorized_keys := ssh_authorized_keys
            tls_certificates := tls_certificates, age_keys := age_keys }
  | _ => .error "invalid type: expected mapping for SecretsConfig"

/-- Deserializer for CpuConfig. -/
def decodeCpuConfig : Yaml → Except String CpuConfig
  | .map m => do
      let vendor ← optField m "vendor" decString ""
      let cores ← optField m "cores" (decOpt (decNatBounded (2 ^ 32))) none
      let threads ← optField m "threads" (decOpt (decNatBounded (2 ^ 32))) none
      let model ← optField m "model" (decOpt decString) none
      .ok { vendor := vendor, cores := cores, threads := threads
            model := model }
  | _ => .error "invalid type: expected mapping for CpuConfig"

/-- Deserializer for MemoryConfig. -/
def decodeMemoryConfig : Yaml → Except String MemoryConfig
  | .map m => do
      let size_gb ← reqField m "size_gb" decF64
      .ok { size_gb := size_gb }
  | _ => .error "invalid type: expected mapping for MemoryConfig"

/-- Deserializer for DiskConfig. -/
def decodeDiskConfig : Yaml → Except String DiskConfig
  | .map m => do
      let device ← reqField m "device" decString
      let size ← optField m "size" (decOpt decString) none
      let disk_type ← optField m "disk_type" (decOpt decString) none
      let mount_point ← optField m "mount_point" (decOpt decString) none
      .ok { device := device, size := size, disk_type := disk_type
            mount_point := mount_point }
  | _ => .error "invalid type: expected mapping for DiskConfig"

/-- Deserializer for GpuConfig. -/
def decodeGpuConfig : Yaml → Except String GpuConfig
  | .map m => do
      let vendor ← reqField m "vendor" decString
      let model ← optField m "model" (decOpt decString) none
      let vram_mb ← optField m "vram_mb" (decOpt (decNatBounded (2 ^ 32))) none
      .ok { vendor := vendor, model := model, vram_mb := vram_mb }
  | _ => .error "invalid type: expected mapping for GpuConfig"

/-- Deserializer for NicConfig. -/
def decodeNicConfig : Yaml → Except String NicConfig
  | .map m => do
      let name ← reqField m "name" decString
      let mac ← optField m "mac" (decOpt decString) none
      let speed_mbps ←
        optField m "speed_mbps" (decOpt (decNatBounded (2 ^ 32))) none
      .ok { name := name, mac := mac, speed_mbps := speed_mbps }
  | _ => .error "invalid type: expected mapping for NicConfig"

/-- Deserializer for KernelConfig. -/
def decodeKernelConfig : Yaml → Except String KernelConfig
  | .map m => do
      let modules ← optField m "modules" (decList decString) []
      let params ← optField m "params" (decList decString) []
      .ok { modules := modules, params := params }
  | _ => .error "invalid type: expected mapping for KernelConfig"

/-- Deserializer for HardwareConfig. -/
def decodeHardwareConfig : Yaml → Except String HardwareConfig
  | .map m => do
      let platform ← optField m "platform" decString ""
      let cpu ← optField m "cpu" decodeCpuConfig CpuConfig.rustDefault
      let memory ← optField m "memory" (decOpt decodeMemoryConfig) none
      let disks ← optField m "disks" (decList decodeDiskConfig) []
      let gpus ← optField m "gpus" (decList decodeGpuConfig) []
      let network_interfaces ←
        optField m "network_interfaces" (decList decodeNicConfig) []
      let kernel ← optField m "kernel" decodeKernelConfig KernelConfig.rustDefault
      let filesystems ← optField m "filesystems" decJson .null
      .ok { platform := platform, cpu := cpu, memory := memory, disks := disks
            gpus := gpus, network_interfaces := network_interfaces
            kernel := kernel, filesystems := filesystems }
  | _ => .error "invalid type: expected mapping for HardwareConfig"

/-- Deserializer for SshBuilderConfig. -/
def decodeSshBuilderConfig : Yaml → Except String SshBuilderConfig
  | .map m => do
      let hostname ← reqField m "hostname" decString
      let fqdn ← reqField m "fqdn" decString
      let identity_file ← optField m "identity_file" (decOpt decString) none
      .ok { hostname := hostname, fqdn := fqdn, identity_file := identity_file }
  | _ => .error "invalid type: expected mapping for SshBuilderConfig"

/-- Deserializer for CloudflareTunnelConfig. -/
def decodeCloudflareTunnelConfig : Yaml → Except String CloudflareTunnelConfig
  | .map m => do
      let user ← reqField m "user" decString
      let domain_suffix ← reqField m "domain_suffix" decString
      let hosts ← optField m "hosts" (decList decString) []
      .ok { user := user, domain_suffix := domain_suffix, hosts := hosts }
  | _ => .error "invalid type: expected mapping for CloudflareTunnelConfig"

/-- Deserializer for SshConfig. -/
def decodeSshConfig : Yaml → Except String SshConfig
  | .map m => do
      let builder ← optField m "builder" (decOpt decodeSshBuilderConfig) none
      let cloudflare_tunnel ←
        optField m "cloudflare_tunnel" (decOpt decodeCloudflareTunnelConfig) none
      .ok { builder := builder, cloudflare_tunnel := cloudflare_tunnel }
  | _ => .error "invalid type: expected mapping for SshConfig"

/-- Deserializer for NetworkInterface. -/
def decodeNetworkInterface : Yaml → Except String NetworkInterface
  | .map m => do
      let address ← optField m "address" (decOpt decString) none
      let prefix_length ←
        optField m "prefix_length" (decOpt (decNatBounded (2 ^ 32))) none
      let gateway ← optField m "gateway" (decOpt decString) none
      let mac ← optField m "mac" (decOpt decString) none
      let mtu ← optField m "mtu" (decOpt (decNatBounded (2 ^ 32))) none
      .ok { address := address, prefix_length := prefix_length
            gateway := gateway, mac := mac, mtu := mtu }
  | _ => .error "invalid type: expected mapping for NetworkInterface"

/-- Deserializer for FirewallConfig. -/
def decodeFirewallConfig : Yaml → Except String FirewallConfig
  | .map m => do
      let allowed_tcp_ports ←
        optField m "allowed_tcp_ports" (decList (decNatBounded (2 ^ 32))) []
      let allowed_udp_ports ←
        optField m "allowed_udp_ports" (decList (decNatBounded (2 ^ 32))) []
      let rules ← optField m "rules" (decList decString) []
      .ok { allowed_tcp_ports := allowed_tcp_ports
            allowed_udp_ports := allowed_udp_ports, rules := rules }
  | _ => .error "invalid type: expected mapping for FirewallConfig"

/-- Deserializer for VpnPeerConfig. -/
def decodeVpnPeerConfig : Yaml → Except String VpnPeerConfig
  | .map m => do
      let public_key ← optField m "public_key" (decOpt decString) none
      let endpoint ← optField m "endpoint" (decOpt decString) none
      let allowed_ips ← optField m "allowed_ips" (decList decString) []
      .ok { public_key := public_key, endpoint := endpoint
            allowed_ips := allowed_ips }
  | _ => .error "invalid type: expected mapping for VpnPeerConfig"

/-- Deserializer for NetworkConfig. -/
def decodeNetworkConfig : Yaml → Except String NetworkConfig
  | .map m => do
      let ssh ← optField m "ssh" decodeSshConfig SshConfig.rustDefault
      let interfaces ←
        optField m "interfaces" (decStrMap decodeNetworkInterface) []
      let hosts ← optField m "hosts" (decStrMap decString) []
      let firewall ←
        optField m "firewall" decodeFirewallConfig FirewallConfig.rustDefault
      let dns_servers ← optField m "dns_servers" (decList decString) []
      let ntp_servers ← optField m "ntp_servers" (decList decString) []
      let vpn ← optField m "vpn" (decList decodeVpnPeerConfig) []
      .ok { ssh := ssh, interfaces := interfaces, hosts := hosts
            firewall := firewall, dns_servers := dns_servers
            ntp_servers := ntp_servers, vpn := vpn }
  | _ => .error "invalid type: expected mapping for NetworkConfig"

/-- Deserializer for AtticConfig. -/
def decodeAtticConfig : Yaml → Except String AtticConfig
  | .map m => do
      let token_file ← optField m "token_file" (decOpt decString) none
      let netrc_file ← optField m "netrc_file" (decOpt decString) none
      .ok { token_file := token_file, netrc_file := netrc_file }
  | _ => .error "invalid type: expected mapping for AtticConfig"

/-- Deserializer for NixNodeConfig (trusted_users defaults to root). -/
def decodeNixNodeConfig : Yaml → Except String NixNodeConfig
  | .map m => do
      let trusted_users ← optField m "trusted_users" (decList decString) ["root"]
      let attic ← optField m "attic" decodeAtticConfig AtticConfig.rustDefault
      .ok { trusted_users := trusted_users, attic := attic }
  | _ => .error "invalid type: expected mapping for NixNodeConfig"

/-- Deserializer for ClusterConfig. -/
def decodeClusterConfig : Yaml → Except String ClusterConfig
  | .map m => do
      let name ← reqField m "name" decString
      let server ← reqField m "server" decString
      .ok { name := name, server := server }
  | _ => .error "invalid type: expected mapping for ClusterConfig"

/-- Deserializer for KubernetesConfig. -/
def decodeKubernetesConfig : Yaml → Except String KubernetesConfig
  | .map m => do
      let role ← optField m "role" (decOpt decString) none
      let cluster_cidr ← optField m "cluster_cidr" (decOpt decString) none
      let service_cidr ← optField m "service_cidr" (decOpt decString) none
      let clusters ← optField m "clusters" (decList decodeClusterConfig) []
      let server_addr ← optField m "server_addr" (decOpt decString) none
      let node_labels ← optField m "node_labels" (decStrMap decString) []
      let node_taints ← optField m "node_taints" (decList decString) []
      .ok { role := role, cluster_cidr := cluster_cidr
            service_cidr := service_cidr, clusters := clusters
            server_addr := server_addr, node_labels := node_labels
            node_taints := node_taints }
  | _ => .error "invalid type: expected mapping for KubernetesConfig"

/-- Deserializer for FluxcdConfig. -/
def decodeFluxcdConfig : Yaml → Except String FluxcdConfig
  | .map m => do
      let enable ← optField m "enable" decBool false
      let source ← optField m "source" decString ""
      let reconcile ← optField m "reconcile" decJson .null
      .ok { enable := enable, source := source, reconcile := reconcile }
  | _ => .error "invalid type: expected mapping for FluxcdConfig"

/-- Deserializer for CustomService. -/
def decodeCustomService : Yaml → Except String CustomService
  | .map m => do
      let name ← reqField m "name" decString
      let port ← optField m "port" (decOpt (decNatBounded (2 ^ 16))) none
      let health_endpoint ← optField m "health_endpoint" (decOpt decString) none
      let protocol ← optField m "protocol" decString "http"
      .ok { name := name, port := port, health_endpoint := health_endpoint
            protocol := protocol }
  | _ => .error "invalid type: expected mapping for CustomService"

/-- Deserializer for ServicesConfig. -/
def decodeServicesConfig : Yaml → Except String ServicesConfig
  | .map m => do
      let custom ← optField m "custom" (decList decodeCustomService) []
      .ok { custom := custom }
  | _ => .error "invalid type: expected mapping for ServicesConfig"

/-- Deserializer for OrgConfig. -/
def decodeOrgConfig : Yaml → Except String OrgConfig
  | .map m => do
      let name ← reqField m "name" decString
      let base_dir ← reqField m "base_dir" decString
      let github_token_file ←
        optField m "github_token_file" (decOpt decString) none
      .ok { name := name, base_dir := base_dir
            github_token_file := github_token_file }
  | _ => .error "invalid type: expected mapping for OrgConfig"

/-- Deserializer for WorkspaceConfig. -/
def decodeWorkspaceConfig : Yaml → Except String WorkspaceConfig
  | .map m => do
      let orgs ← optField m "orgs" (decList decodeOrgConfig) []
      let zoekt_repos ← optField m "zoekt_repos" (decList decString) []
      let codesearch ← optField m "codesearch" decJson .null
      .ok { orgs := orgs, zoekt_repos := zoekt_repos, codesearch := codesearch }
  | _ => .error "invalid type: expected mapping for WorkspaceConfig"

/-- Deserializer for GitUserConfig. -/
def decodeGitUserConfig : Yaml → Except String GitUserConfig
  | .map m => do
      let name ← optField m "name" decString ""
      let email ← optField m "email" decString ""
      .ok { name := name, email := email }
  | _ => .error "invalid type: expected mapping for GitUserConfig"

/-- Deserializer for GitConfig. -/
def decodeGitConfig : Yaml → Except String GitConfig
  | .map m => do
      let user ← optField m "user" decodeGitUserConfig GitUserConfig.rustDefault
      .ok { user := user }
  | _ => .error "invalid type: expected mapping for GitConfig"

/-- Deserializer for MaintenanceWindow. -/
def decodeMaintenanceWindow : Yaml → Except String MaintenanceWindow
  | .map m => do
      let day ← optField m "day" (decOpt decString) none
      let start_hour ←
        optField m "start_hour" (decOpt (decNatBounded (2 ^ 8))) none
      let duration_hours ←
        optField m "duration_hours" (decOpt (decNatBounded (2 ^ 8))) none
      .ok { day := day, start_hour := start_hour
            duration_hours := duration_hours }
  | _ => .error "invalid type: expected mapping for MaintenanceWindow"

/-- Deserializer for FleetPeer. -/
def decodeFleetPeer : Yaml → Except String FleetPeer
  | .map m => do
      let name ← reqField m "name" decString
      let hostname ← reqField m "hostname" decString
      let ssh_user ← optField m "ssh_user" decString "root"
      .ok { name := name, hostname := hostname, ssh_user := ssh_user }
  | _ => .error "invalid type: expected mapping for FleetPeer"

/-- Deserializer for FleetConfig. -/
def decodeFleetConfig : Yaml → Except String FleetConfig
  | .map m => do
      let controller ← optField m "controller" (decOpt decString) none
      let environment ← optField m "environment" (decOpt decString) none
      let owner ← optField m "owner" (decOpt decString) none
      let team ← optField m "team" (decOpt decString) none
      let tags ← optField m "tags" (decList decString) []
      let maintenance_windows ←
        optField m "maintenance_windows" (decList decodeMaintenanceWindow) []
      let dependencies ← optField m "dependencies" (decList decString) []
      let peers ← optField m "peers" (decList decodeFleetPeer) []
      .ok { controller := controller, environment := environment
            owner := owner, team := team, tags := tags
            maintenance_windows := maintenance_windows
            dependencies := dependencies, peers := peers }
  | _ => .error "invalid type: expected mapping for FleetConfig"

/-- Deserializer body for NodeIdentity over a mapping. -/
def decodeNodeIdentityMap (m : YMap) : Except String NodeIdentity := do
  let version ← reqField m "version" decString
  let profile ← reqField m "profile" decString
  let hostname ← reqField m "hostname" decString
  let user ← optField m "user" decodeUserConfig UserConfig.rustDefault
  let secrets ←
    optField m "secrets" decodeSecretsConfig SecretsConfig.rustDefault
  let hardware ←
    optField m "hardware" decodeHardwareConfig HardwareConfig.rustDefault
  let network ←
    optField m "network" decodeNetworkConfig NetworkConfig.rustDefault
  let nix ← optField m "nix" decodeNixNodeConfig NixNodeConfig.rustDefault
  let kubernetes ←
    optField m "kubernetes" decodeKubernetesConfig KubernetesConfig.rustDefault
  let fluxcd ← optField m "fluxcd" decodeFluxcdConfig FluxcdConfig.rustDefault
  let services ←
    optField m "services" decodeServicesConfig ServicesConfig.rustDefault
  let workspace ←
    optField m "workspace" decodeWorkspaceConfig WorkspaceConfig.rustDefault
  let git ← optField m "git" decodeGitConfig GitConfig.rustDefault
  let fleet ← optField m "fleet" decodeFleetConfig FleetConfig.rustDefault
  .ok { version := version, profile := profile, hostname := hostname
        user := user, secrets := secrets, hardware := hardware
        network := network, nix := nix, kubernetes := kubernetes
        fluxcd := fluxcd, services := services, workspace := workspace
        git := git, fleet := fleet }

/-- Deserializer for NodeIdentity (serde_yaml from_value at the end of
load_with_overlays, and inside redact). -/
def decodeNodeIdentity : Yaml → Except String NodeIdentity
  | .map m => decodeNodeIdentityMap m
  | _ => .error "invalid type: expected mapping for NodeIdentity"

/-! Model of the serde serializers (serde_yaml to_value) for the identity
schema: each struct becomes a mapping with one entry per field in declaration
order, None becomes null, Some unwraps, vectors become sequences, the
HashMap fields emit their entries in model list order (real hash iteration
order is unspecified; the claims never depend on entry order). -/

/-- Build a mapping from an entry list. -/
def YMap.ofList : List (Yaml × Yaml) → YMap
  | [] => .nil
  | (k, v) :: t => .cons k v (ofList t)

/-- Build a sequence from a value list. -/
def YSeq.ofList : List Yaml → YSeq
  | [] => .nil
  | h :: t => .cons h (ofList t)

/-- Serialize an Option. -/
def encOpt (f : α → Yaml) : Option α → Yaml
  | none => .null
  | some x => f x

/-- Serialize a Vec. -/
def encList (f : α → Yaml) (xs : List α) : Yaml := .seq (YSeq.ofList (xs.map f))

/-- Serialize a String-keyed map. -/
def encStrMap (f : α → Yaml) (xs : List (String × α)) : Yaml :=
  .map (YMap.ofList (xs.map fun e => (.str e.1, f e.2)))

/-- Serializer for UserConfig. -/
def encodeUserConfig (u : UserConfig) : Yaml :=
  .map (YMap.ofList
    [(.str "name", .str u.name), (.str "uid", .int u.uid),
     (.str "shell", .str u.shell), (.str "email", .str u.email)])

/-- Serializer for TlsCertificate. -/
def encodeTlsCertificate (c : TlsCertificate) : Yaml :=
  .map (YMap.ofList
    [(.str "domain", .str c.domain),
     (.str "cert_file", encOpt .str c.cert_file),
     (.str "key_file", encOpt .str c.key_file),
     (.str "issuer", encOpt .str c.issuer)])

/-- Serializer for SecretsConfig. -/
def encodeSecretsConfig (s : SecretsConfig) : Yaml :=
  .map (YMap.ofList
    [(.str "provider", .str s.provider),
     (.str "age_key_file", encOpt .str s.age_key_file),
     (.str "ssh_authorized_keys", encList .str s.ssh_authorized_keys),
     (.str "tls_certificates", encList encodeTlsCertificate s.tls_certificates),
     (.str "age_keys", encList .str s.age_keys)])

/-- Serializer for CpuConfig. -/
def encodeCpuConfig (c : CpuConfig) : Yaml :=
  .map (YMap.ofList
    [(.str "vendor", .str c.vendor),
     (.str "cores", encOpt .int c.cores),
     (.str "threads", encOpt .int c.threads),
     (.str "model", encOpt .str c.model)])

/-- Serializer for MemoryConfig. -/
def encodeMemoryConfig (c : MemoryConfig) : Yaml :=
  .map (YMap.ofList [(.str "size_gb", .float c.size_gb)])

/-- Serializer for DiskConfig. -/
def encodeDiskConfig (d : DiskConfig) : Yaml :=
  .map (YMap.ofList
    [(.str "device", .str d.device),
     (.str "size", encOpt .str d.size),
     (.str "disk_type", encOpt .str d.disk_type),
     (.str "mount_point", encOpt .str d.mount_point)])

/-- Serializer for GpuConfig. -/
def encodeGpuConfig (g : GpuConfig) : Yaml :=
  .map (YMap.ofList
    [(.str "vendor", .str g.vendor),
     (.str "model", encOpt .str g.model),
     (.str "vram_mb", encOpt .int g.vram_mb)])

/-- Serializer for NicConfig. -/
def encodeNicConfig (n : NicConfig) : Yaml :=
  .map (YMap.ofList
    [(.str "name", .str n.name),
     (.str "mac", encOpt .str n.mac),
     (.str "speed_mbps", encOpt .int n.speed_mbps)])

/-- Serializer for KernelConfig. -/
def encodeKernelConfig (k : KernelConfig) : Yaml :=
  .map (YMap.ofList
    [(.str "modules", encList .str k.modules),
     (.str "params", encList .str k.params)])

/-- Serializer for HardwareConfig. -/
def encodeHardwareConfig (h : HardwareConfig) : Yaml :=
  .map (YMap.ofList
    [(.str "platform", .str h.platform),
     (.str "cpu", encodeCpuConfig h.cpu),
     (.str "memory", encOpt encodeMemoryConfig h.memory),
     (.str "disks", encList encodeDiskConfig h.disks),
     (.str "gpus", encList encodeGpuConfig h.gpus),
     (.str "network_interfaces", encList encodeNicConfig h.network_interfaces),
     (.str "kernel", encodeKernelConfig h.kernel),
     (.str "filesystems", h.filesystems)])

/-- Serializer for SshBuilderConfig. -/
def encodeSshBuilderConfig (b : SshBuilderConfig) : Yaml :=
  .map (YMap.ofList
    [(.str "hostname", .str b.hostname),
     (.str "fqdn", .str b.fqdn),
     (.str "identity_file", encOpt .str b.identity_file)])

/-- Serializer for CloudflareTunnelConfig. -/
def encodeCloudflareTunnelConfig (c : CloudflareTunnelConfig) : Yaml :=
  .map (YMap.ofList
    [(.str "user", .str c.user),
     (.str "domain_suffix", .str c.domain_suffix),
     (.str "hosts", encList .str c.hosts)])

/-- Serializer for SshConfig. -/
def encodeSshConfig (s : SshConfig) : Yaml :=
  .map (YMap.ofList
    [(.str "builder", encOpt encodeSshBuilderConfig s.builder),
     (.str "cloudflare_tunnel",
       encOpt encodeCloudflareTunnelConfig s.cloudflare_tunnel)])

/-- Serializer for NetworkInterface. -/
def encodeNetworkInterface (i : NetworkInterface) : Yaml :=
  .map (YMap.ofList
    [(.str "address", encOpt .str i.address),
     (.str "prefix_length", encOpt .int i.prefix_length),
     (.str "gateway", encOpt .str i.gateway),
     (.str "mac", encOpt .str i.mac),
     (.str "mtu", encOpt .int i.mtu)])

/-- Serializer for FirewallConfig. -/
def encodeFirewallConfig (f : FirewallConfig) : Yaml :=
  .map (YMap.ofList
    [(.str "allowed_tcp_ports", encList .int f.allowed_tcp_ports),
     (.str "allowed_udp_ports", encList .int f.allowed_udp_ports),
     (.str "rules", encList .str f.rules)])

/-- Serializer for VpnPeerConfig. -/
def encodeVpnPeerConfig (v : VpnPeerConfig) : Yaml :=
  .map (YMap.ofList
    [(.str "public_key", encOpt .str v.public_key),
     (.str "endpoint", encOpt .str v.endpoint),
     (.str "allowed_ips", encList .str v.allowed_ips)])

/-- Serializer for NetworkConfig. -/
def encodeNetworkConfig (n : NetworkConfig) : Yaml :=
  .map (YMap.ofList
    [(.str "ssh", encodeSshConfig n.ssh),
     (.str "interfaces", encStrMap encodeNetworkInterface n.interfaces),
     (.str "hosts", encStrMap .str n.hosts),
     (.str "firewall", encodeFirewallConfig n.firewall),
     (.str "dns_servers", encList .str n.dns_servers),
     (.str "ntp_servers", encList .str n.ntp_servers),
     (.str "vpn", encList encodeVpnPeerConfig n.vpn)])

/-- Serializer for AtticConfig. -/
def encodeAtticConfig (a : AtticConfig) : Yaml :=
  .map (YMap.ofList
    [(.str "token_file", encOpt .str a.token_file),
     (.str "netrc_file", encOpt .str a.netrc_file)])

/-- Serializer for NixNodeConfig. -/
def encodeNixNodeConfig (n : NixNodeConfig) : Yaml :=
  .map (YMap.ofList
    [(.str "trusted_users", encList .str n.trusted_users),
     (.str "attic", encodeAtticConfig n.attic)])

/-- Serializer for ClusterConfig. -/
def encodeClusterConfig (c : ClusterConfig) : Yaml :=
  .map (YMap.ofList
    [(.str "name", .str c.name), (.str "server", .str c.server)])

/-- Serializer for KubernetesConfig. -/
def encodeKubernetesConfig (k : KubernetesConfig) : Yaml :=
  .map (YMap.ofList
    [(.str "role", encOpt .str k.role),
     (.str "cluster_cidr", encOpt .str k.cluster_cidr),
     (.str "service_cidr", encOpt .str k.service_cidr),
     (.str "clusters", encList encodeClusterConfig k.clusters),
     (.str "server_addr", encOpt .str k.server_addr),
     (.str "node_labels", encStrMap .str k.node_labels),
     (.str "node_taints", encList .str k.node_taints)])

/-- Serializer for FluxcdConfig. -/
def encodeFluxcdConfig (f : FluxcdConfig) : Yaml :=
  .map (YMap.ofList
    [(.str "enable", .bool f.enable),
     (.str "source", .str f.source),
     (.str "reconcile", f.reconcile)])

/-- Serializer for CustomService. -/
def encodeCustomService (c : CustomService) : Yaml :=
  .map (YMap.ofList
    [(.str "name", .str c.name),
     (.str "port", encOpt .int c.port),
     (.str "health_endpoint", encOpt .str c.health_endpoint),
     (.str "protocol", .str c.protocol)])

/-- Serializer for ServicesConfig. -/
def encodeServicesConfig (s : ServicesConfig) : Yaml :=
  .map (YMap.ofList [(.str "custom", encList encodeCustomService s.custom)])

/-- Serializer for OrgConfig. -/
def encodeOrgConfig (o : OrgConfig) : Yaml :=
  .map (YMap.ofList
    [(.str "name", .str o.name),
     (.str "base_dir", .str o.base_dir),
     (.str "github_token_file", encOpt .str o.github_token_file)])

/-- Serializer for WorkspaceConfig. -/
def encodeWorkspaceConfig (w : WorkspaceConfig) : Yaml :=
  .map (YMap.ofList
    [(.str "orgs", encList encodeOrgConfig w.orgs),
     (.str "zoekt_repos", encList .str w.zoekt_repos),
     (.str "codesearch", w.codesearch)])

/-- Serializer for GitUserConfig. -/
def encodeGitUserConfig (g : GitUserConfig) : Yaml :=
  .map (YMap.ofList
    [(.str "name", .str g.name), (.str "email", .str g.email)])

/-- Serializer for GitConfig. -/
def encodeGitConfig (g : GitConfig) : Yaml :=
  .map (YMap.ofList [(.str "user", encodeGitUserConfig g.user)])

/-- Serializer for MaintenanceWindow. -/
def encodeMaintenanceWindow (w : MaintenanceWindow) : Yaml :=
  .map (YMap.ofList
    [(.str "day", encOpt .str w.day),
     (.str "start_hour", encOpt .int w.start_hour),
     (.str "duration_hours", encOpt .int w.duration_hours)])

/-- Serializer for FleetPeer. -/
def encodeFleetPeer (p : FleetPeer) : Yaml :=
  .map (YMap.ofList
    [(.str "name", .str p.name),
     (.str "hostname", .str p.hostname),
     (.str "ssh_user", .str p.ssh_user)])

/-- Serializer for FleetConfig. -/
def encodeFleetConfig (f : FleetConfig) : Yaml :=
  .map (YMap.ofList
    [(.str "controller", encOpt .str f.controller),
     (.str "environment", encOpt .str f.environment),
     (.str "owner", encOpt .str f.owner),
     (.str "team", encOpt .str f.team),
     (.str "tags", encList .str f.tags),
     (.str "maintenance_windows",
       encList encodeMaintenanceWindow f.maintenance_windows),
     (.str "dependencies", encList .str f.dependencies),
     (.str "peers", encList encodeFleetPeer f.peers)])

/-- Serializer for NodeIdentity (serde_yaml to_value inside redact). -/
def encodeNodeIdentity (id : NodeIdentity) : Yaml :=
  .map (YMap.ofList
    [(.str "version", .str id.version),
     (.str "profile", .str id.profile),
     (.str "hostname", .str id.hostname),
     (.str "user", encodeUserConfig id.user),
     (.str "secrets", encodeSecretsConfig id.secrets),
     (.str "hardware", encodeHardwareConfig id.hardware),
     (.str "network", encodeNetworkConfig id.network),
     (.str "nix", encodeNixNodeConfig id.nix),
     (.str "kubernetes", encodeKubernetesConfig id.kubernetes),
     (.str "fluxcd", encodeFluxcdConfig id.fluxcd),
     (.str "services", encodeServicesConfig id.services),
     (.str "workspace", encodeWorkspaceConfig id.workspace),
     (.str "git", encodeGitConfig id.git),
     (.str "fleet", encodeFleetConfig id.fleet)])

/-- NodeIdentity redact from node_identity/mod.rs: serialize the identity to
an untyped tree, remove every private dot-path, and decode the result back
into the schema; a decode failure propagates as an error (serialization of
the schema itself cannot fail and is modelled total). -/
def NodeIdentity.redact (id : NodeIdentity) (private_fields : List String) :
    Except String NodeIdentity :=
  decodeNodeIdentity
    (private_fields.foldl remove_field_path (encodeNodeIdentity id))

/-- NodeService redacted_identity from node_service.rs: no identity gives
none; otherwise redact, returning the redacted copy on success and falling
back to the FULL identity (with a logged warning) when redaction fails. -/
def NodeService.redacted_identity (identity : Option NodeIdentity)
    (private_fields : List String) : Option NodeIdentity :=
  match identity with
  | none => none
  | some id =>
      match id.redact private_fields with
      | .ok redacted => some redacted
      | .error _ => some id

/-- NodeIdentity from_bootstrap from node_identity/mod.rs. -/
def NodeIdentity.from_bootstrap (profile hostname user : String)
    (age_key_file : Option String) : NodeIdentity :=
  { version := "1", profile := profile, hostname := hostname
    user := { name := user, uid := 1000, shell := "blzsh", email := "" }
    secrets := { SecretsConfig.rustDefault with
                  provider := "sops", age_key_file := age_key_file }
    hardware := HardwareConfig.rustDefault
    network := NetworkConfig.rustDefault
    nix := { trusted_users := ["root", user], attic := AtticConfig.rustDefault }
    kubernetes := KubernetesConfig.rustDefault
    fluxcd := FluxcdConfig.rustDefault
    services := ServicesConfig.rustDefault
    workspace := WorkspaceConfig.rustDefault
    git := { user := { name := user, email := "" } }
    fleet := FleetConfig.rustDefault }

/-- load_with_overlays from node_identity/mod.rs, end to end: merge the base
document with the pooled, sorted overlays, then decode the merged tree into
the typed schema; a decode failure at this final step is fatal. -/
def load_with_overlays (base : Option Yaml) (defaultDir : OverlayDir)
    (extraDirs : List OverlayDir) (readFile : List String → Option Yaml) :
    Except String NodeIdentity :=
  match mergedOverlayTree base defaultDir extraDirs readFile with
  | .error e => .error e
  | .ok tree => decodeNodeIdentity tree

/-- The field names of the NodeIdentity schema. -/
def nodeIdentityKnownKeys : List String :=
  ["version", "profile", "hostname", "user", "secrets", "hardware",
   "network", "nix", "kubernetes", "fluxcd", "services", "workspace",
   "git", "fleet"]

theorem get_append_ne (m : YMap) (k v q : Yaml) (h : k ≠ q) :
    (m.append k v).get q = m.get q := by
  rw [get_append]
  cases hg : m.get q with
  | some x => rfl
  | none => simp [h]

/-- C8 counterexample: a base document carrying only the three required
fields, merged with an overlay that contributes a field bogus which does not
exist in the schema, still decodes successfully at the final step — the
unknown field is silently ignored (serde derive without deny_unknown_fields),
not rejected. -/
theorem c8_counterexample :
    load_with_overlays
        (some (.map (YMap.ofList
          [(.str "version", .str "1"), (.str "profile", .str "dev"),
           (.str "hostname", .str "node-a")])))
        ⟨["cfg", "d"], ["10-extra.yaml"]⟩ []
        (fun p =>
          if p = ["cfg", "d", "10-extra.yaml"] then
            some (.map (.cons (.str "bogus") (.int 1) .nil))
          else none) =
      .ok
        { version := "1", profile := "dev", hostname := "node-a"
          user := UserConfig.rustDefault, secrets := SecretsConfig.rustDefault
          hardware := HardwareConfig.rustDefault
          network := NetworkConfig.rustDefault
          nix := NixNodeConfig.rustDefault
          kubernetes := KubernetesConfig.rustDefault
          fluxcd := FluxcdConfig.rustDefault
          services := ServicesConfig.rustDefault
          workspace := WorkspaceConfig.rustDefault
          git := GitConfig.rustDefault, fleet := FleetConfig.rustDefault } := by
  decide

/-- C8 amended: after merging, the merged tree is decoded into the identity
schema, and an unknown or extra field that does not exist in the schema is
silently ignored by that decode — appending any entry under a key that is
not a schema field name leaves the decode result unchanged (it is neither
rejected nor does it affect the result). -/
theorem c8_unknown_fields_amended :
    ∀ (m : YMap) (k v : Yaml),
      (∀ name ∈ nodeIdentityKnownKeys, k ≠ Yaml.str name) →
      decodeNodeIdentity (.map (m.append k v)) = decodeNodeIdentity (.map m) := by
  intro m k v hk
  have h1 := get_append_ne m k v (.str "version")
    (hk "version" (by simp [nodeIdentityKnownKeys]))
  have h2 := get_append_ne m k v (.str "profile")
    (hk "profile" (by simp [nodeIdentityKnownKeys]))
  have h3 := get_append_ne m k v (.str "hostname")
    (hk "hostname" (by simp [nodeIdentityKnownKeys]))
  have h4 := get_append_ne m k v (.str "user")
    (hk "user" (by simp [nodeIdentityKnownKeys]))
  have h5 := get_append_ne m k v (.str "secrets")
    (hk "secrets" (by simp [nodeIdentityKnownKeys]))
  have h6 := get_append_ne m k v (.str "hardware")
    (hk "hardware" (by simp [nodeIdentityKnownKeys]))
  have h7 := get_append_ne m k v (.str "network")
    (hk "network" (by simp [nodeIdentityKnownKeys]))
  have h8 := get_append_ne m k v (.str "nix")
    (hk "nix" (by simp [nodeIdentityKnownKeys]))
  have h9 := get_append_ne m k v (.str "kubernetes")
    (hk "kubernetes" (by simp [nodeIdentityKnownKeys]))
  have h10 := get_append_ne m k v (.str "fluxcd")
    (hk "fluxcd" (by simp [nodeIdentityKnownKeys]))
  have h11 := get_append_ne m k v (.str "services")
    (hk "services" (by simp [nodeIdentityKnownKeys]))
  have h12 := get_append_ne m k v (.str "workspace")
    (hk "workspace" (by simp [nodeIdentityKnownKeys]))
  have h13 := get_append_ne m k v (.str "git")
    (hk "git" (by simp [nodeIdentityKnownKeys]))
  have h14 := get_append_ne m k v (.str "fleet")
    (hk "fleet" (by simp [nodeIdentityKnownKeys]))
  simp only [decodeNodeIdentity, decodeNodeIdentityMap, reqField, optField,
    h1, h2, h3, h4, h5, h6, h7, h8, h9, h10, h11, h12, h13, h14]

/-- Witness for the amended C8: appending the unknown key bogus to a minimal
identity mapping leaves the decode result unchanged. -/
theorem c8_unknown_fields_amended_witness :
    decodeNodeIdentity
        (.map ((YMap.ofList
          [(.str "version", .str "1"), (.str "profile", .str "dev"),
           (.str "hostname", .str "node-a")]).append (.str "bogus") (.int 1))) =
      decodeNodeIdentity
        (.map (YMap.ofList
          [(.str "version", .str "1"), (.str "profile", .str "dev"),
           (.str "hostname", .str "node-a")])) := by
  refine c8_unknown_fields_amended _ _ _ ?_
  intro name hmem
  simp [nodeIdentityKnownKeys] at hmem
  rcases hmem with h | h | h | h | h | h | h | h | h | h | h | h | h | h <;>
    (subst h; decide)

/-- C10: when redaction of the current identity fails (the redacted tree no
longer decodes into the schema), redacted_identity returns the FULL,
unredacted identity rather than an error or nothing; on success it returns
the redacted copy, and with no identity loaded it returns nothing. -/
theorem c10_redacted_identity_fallback :
    ∀ (id : NodeIdentity) (fields : List String),
      (∀ e, id.redact fields = .error e →
        NodeService.redacted_identity (some id) fields = some id) ∧
      (∀ r, id.redact fields = .ok r →
        NodeService.redacted_identity (some id) fields = some r) ∧
      NodeService.redacted_identity none fields = none := by
  intro id fields
  refine ⟨fun e he => ?_, fun r hr => ?_, rfl⟩
  · simp [NodeService.redacted_identity, he]
  · simp [NodeService.redacted_identity, hr]

/-- Witness for C10: redacting the required field hostname out of a bootstrap
identity makes the redacted tree undecodable, and redacted_identity falls
back to the full identity; redacting nix.trusted_users succeeds and returns
the redacted copy (trusted_users back at its deserialization default). -/
theorem c10_redacted_identity_fallback_witness :
    (NodeService.redacted_identity
        (some (NodeIdentity.from_bootstrap "dev" "node-a" "alice" none))
        ["hostname"] =
      some (NodeIdentity.from_bootstrap "dev" "node-a" "alice" none)) ∧
    (NodeService.redacted_identity
        (some (NodeIdentity.from_bootstrap "dev" "node-a" "alice" none))
        ["nix.trusted_users"] =
      some { NodeIdentity.from_bootstrap "dev" "node-a" "alice" none with
              nix := { trusted_users := ["root"]
                       attic := AtticConfig.rustDefault } }) := by
  constructor
  · exact (c10_redacted_identity_fallback
      (NodeIdentity.from_bootstrap "dev" "node-a" "alice" none)
      ["hostname"]).1 "missing field hostname" (by decide)
  · exact (c10_redacted_identity_fallback
      (NodeIdentity.from_bootstrap "dev" "node-a" "alice" none)
      ["nix.trusted_users"]).2.1 _ (by decide)

end Kindling
